import Mathlib

/-!
Verification development for the THEY SING order-resolution engine
(`src/engine/types.ts`, engine class `TheySingEngine`, together with the
static game data `gameData.ts`: `UNIT_STATS`, `THRESHOLDS`, `TECH_TREE`).

The TypeScript engine is shallowly embedded: the mutable `GameState` of the
engine becomes an immutable structure, every mutating method becomes a
function `GameState → GameState` (or returning an extra result), and JS `Map`
collections become insertion-ordered lists keyed by `id` (JS `Map` iteration
is insertion-ordered; `set` on an existing key updates in place, `delete`
removes, both reflected by the list operations used here).

Sources of nondeterminism and environment access are made explicit:
`Math.random()` draws of `performStealthCheck` are modelled by a pre-drawn
stream `rolls` stored in the state (each entry standing for
`Math.floor(Math.random()*10)+1`), and the `Date.now()`-based `generateId`
is modelled by a fresh-id counter `nextId`.  `emit` appends to an
append-only event trace `events` (the synchronous listener bus delivers
exactly this sequence), and `log` appends to `logs`; log message strings are
abbreviated constants since no engine logic reads them back.  Wall-clock
timestamps are not modelled.
-/

namespace TheySing

/-- `FactionId` from types.ts. -/
inductive FactionId where
  | HEGEMON | INFILTRATOR | STATE | NEUTRAL
deriving DecidableEq, Repr

/-- Combat `Vector`: the loop KINETIC > MEMETIC > LOGIC > INFO > KINETIC. -/
inductive Vector where
  | KINETIC | INFO | MEMETIC | LOGIC
deriving DecidableEq, Repr

/-- `VECTOR_SUPERIORITY` table from types.ts: which vector each vector beats. -/
def VECTOR_SUPERIORITY : Vector → Vector
  | .KINETIC => .MEMETIC
  | .MEMETIC => .LOGIC
  | .LOGIC => .INFO
  | .INFO => .KINETIC

/-- `UnitType` from types.ts. -/
inductive UnitType where
  | DRONE | SWARM | CULT | AUDITOR | SAT_SWARM
deriving DecidableEq, Repr

/-- Build currency: FLOPs or Influence. -/
inductive Currency where
  | F | I
deriving DecidableEq, Repr

/-- `UnitStats` from types.ts (the `special` description string is dropped:
no engine logic reads it). -/
structure UnitStats where
  vector : Vector
  cost : Nat
  currency : Currency
  speed : Nat
  stealth : Nat
  canFilter : Bool
  canOrbit : Bool
deriving DecidableEq, Repr

/-- `UNIT_STATS` from gameData.ts. -/
def UNIT_STATS : UnitType → UnitStats
  | .DRONE     => ⟨.KINETIC, 2, .F, 2, 0, false, false⟩
  | .SWARM     => ⟨.INFO,    1, .I, 3, 2, false, true⟩
  | .CULT      => ⟨.MEMETIC, 1, .I, 1, 1, false, false⟩
  | .AUDITOR   => ⟨.LOGIC,   2, .F, 1, 0, true,  false⟩
  | .SAT_SWARM => ⟨.KINETIC, 3, .F, 4, 1, false, true⟩

/-- `THRESHOLDS` from gameData.ts. -/
def TAS_PANIC : Nat := 50
def TAS_FAILURE : Nat := 100
def KESSLER_SLOW : Nat := 50
def KESSLER_COLLAPSE : Nat := 100
def ZOMBIE_TURNS : Nat := 2
def CULT_TURNS : Nat := 3

/-- `Unit` from types.ts. -/
structure Unit where
  id : String
  type : UnitType
  owner : FactionId
  location : String
  stealthLevel : Nat
  isRevealed : Bool
  hasActed : Bool
  turnsOnNode : Nat
deriving DecidableEq, Repr

/-- `NodeType` from types.ts. -/
inductive NodeType where
  | DC | HUB | SAT | ZOMBIE | CULT_NODE
deriving DecidableEq, Repr

/-- `Layer` from types.ts. -/
inductive Layer where
  | TERRESTRIAL | ORBITAL
deriving DecidableEq, Repr

/-- `EdgeType` from types.ts. -/
inductive EdgeType where
  | CABLE | LASER
deriving DecidableEq, Repr

/-- `GameNode` from types.ts (`position` is dropped: purely presentational,
no engine logic reads it; `resources` is flattened into two fields). -/
structure GameNode where
  id : String
  type : NodeType
  layer : Layer
  owner : Option FactionId
  flops : Nat
  influence : Nat
  isZombie : Bool
  isCultNode : Bool
  infrastructure : Nat
deriving DecidableEq, Repr

/-- `GameEdge` from types.ts (`from`/`to` become `fromNode`/`toNode`,
`from` being reserved in Lean). -/
structure GameEdge where
  id : String
  fromNode : String
  toNode : String
  type : EdgeType
  bandwidth : Nat
  filteredBy : Option FactionId
  filterStrength : Nat
  isSevered : Bool
deriving DecidableEq, Repr

/-- `OrderType` from types.ts. -/
inductive OrderType where
  | MOVE | HOLD | SUPPORT | ATTACK | FILTER | SABOTAGE | ANTI_SAT
  | CONVERT | AUDIT | BUILD | RESEARCH
deriving DecidableEq, Repr

/-- `Order` from types.ts.  Optional TS fields become `Option`s; the
`order.unitId &&` truthiness test in the validator corresponds to
`unitId ≠ ""`. -/
structure Order where
  id : String
  faction : FactionId
  unitId : String
  type : OrderType
  targetNodeId : Option String := none
  targetEdgeId : Option String := none
  targetUnitId : Option String := none
  techDomain : Option Vector := none
  unitTypeToBuild : Option UnitType := none
  priority : Int := 0
deriving DecidableEq, Repr

/-- `TechLevel` from types.ts. -/
structure TechLevel where
  KINETIC : Nat
  INFO : Nat
  LOGIC : Nat
  MEMETIC : Nat
deriving DecidableEq, Repr

/-- Indexing `faction.techLevel[domain]`. -/
def TechLevel.get (t : TechLevel) : Vector → Nat
  | .KINETIC => t.KINETIC
  | .INFO => t.INFO
  | .LOGIC => t.LOGIC
  | .MEMETIC => t.MEMETIC

/-- `faction.techLevel[domain]++`. -/
def TechLevel.bump (t : TechLevel) : Vector → TechLevel
  | .KINETIC => { t with KINETIC := t.KINETIC + 1 }
  | .INFO => { t with INFO := t.INFO + 1 }
  | .LOGIC => { t with LOGIC := t.LOGIC + 1 }
  | .MEMETIC => { t with MEMETIC := t.MEMETIC + 1 }

/-- One entry of `TECH_TREE` in gameData.ts (name/effect strings dropped:
only `id`, `domain` and `level` are read by the engine). -/
structure TechUnlock where
  id : String
  domain : Vector
  level : Nat
deriving DecidableEq, Repr

/-- `TECH_TREE` from gameData.ts. -/
def TECH_TREE : List TechUnlock :=
  [ ⟨"K1_DRONES", .KINETIC, 1⟩, ⟨"K2_FLASH_FAB", .KINETIC, 2⟩,
    ⟨"K3_AUTONOMY", .KINETIC, 3⟩,
    ⟨"I1_ROOTKIT", .INFO, 1⟩, ⟨"I2_POLYSEMANTIC", .INFO, 2⟩,
    ⟨"I3_PROTOCOL_ZERO", .INFO, 3⟩,
    ⟨"L1_VERIFY", .LOGIC, 1⟩, ⟨"L2_AUTO_AGENTS", .LOGIC, 2⟩,
    ⟨"L3_AXIOM_SEAL", .LOGIC, 3⟩,
    ⟨"M1_CULTS", .MEMETIC, 1⟩, ⟨"M2_DEEPFAKE", .MEMETIC, 2⟩,
    ⟨"M3_MANSON", .MEMETIC, 3⟩ ]

/-- `Artifact` from types.ts (held in faction state; the engine never
resolves artifacts, they only sit in the data model). -/
structure Artifact where
  id : String
  aType : String
  owner : FactionId
  isUsed : Bool
deriving DecidableEq, Repr

/-- `FactionState` from types.ts.  The `unlockedTechs` / `revealedEnemies`
`Set`s become lists with membership semantics. -/
structure FactionState where
  id : FactionId
  flops : Nat
  influence : Nat
  techLevel : TechLevel
  unlockedTechs : List String
  submittedOrders : List Order
  revealedEnemies : List String
  artifacts : List Artifact
deriving DecidableEq, Repr

/-- `GamePhase` from types.ts. -/
inductive GamePhase where
  | NEGOTIATION | ALLOCATION | ACTION_DECLARATION | RESOLUTION | TURN_END
deriving DecidableEq, Repr

/-- `GlobalCounters` from types.ts. -/
structure GlobalCounters where
  tas : Nat
  kessler : Nat
  turn : Nat
  regulatoryPanic : Bool
  protocolFailure : Bool
  orbitalCollapse : Bool
deriving DecidableEq, Repr

/-- `GameEventType` from types.ts (only the types actually emitted by the
engine class are listed). -/
inductive GameEventType where
  | PHASE_CHANGED | TURN_STARTED | ORDER_SUBMITTED | TECH_UNLOCKED
  | TAS_THRESHOLD | KESSLER_THRESHOLD | GAME_OVER | UNIT_CREATED
  | UNIT_DESTROYED | UNIT_REVEALED | NODE_CAPTURED | NODE_CONVERTED
  | EDGE_FILTERED | COMBAT_RESOLVED
deriving DecidableEq, Repr

/-- Combat outcome tag used in the `COMBAT_RESOLVED` payload. -/
inductive CombatSide where
  | ATTACKER | DEFENDER | STANDOFF
deriving DecidableEq, Repr

/-- The `payload` record of each `emit` call site, one constructor per
distinct payload shape.  The two `TAS_THRESHOLD` emissions differ:
research emits `{ tas, delta }` (`tasDelta`), the panic latch emits
`{ tas, threshold: "PANIC" }` (`tasThreshold`). -/
inductive EventPayload where
  | phaseChanged (fromPhase toPhase : GamePhase)
  | turnStarted (turn : Nat)
  | orderSubmitted (factionId : FactionId) (orderCount : Nat)
  | techUnlocked (faction : FactionId) (tech : String)
  | tasDelta (tas : Nat) (delta : Nat)
  | tasThreshold (tas : Nat) (threshold : String)
  | kesslerDelta (kessler : Nat) (delta : Nat)
  | kesslerThreshold (kessler : Nat) (threshold : String)
  | gameOver (reason : String) (tas : Nat)
  | unitCreated (unitId : String)
  | unitDestroyed (unitId : String)
  | unitRevealed (unitId : String) (revealedBy : FactionId)
  | nodeCaptured (nodeId : String) (faction : FactionId)
  | nodeConverted (nodeId : String) (faction : FactionId) (ctype : String)
  | edgeFiltered (edgeId : String) (faction : FactionId)
  | combatResolved (nodeId : String) (result : CombatSide)
      (casualties : List String) (attackPower defendPower : Nat)
deriving DecidableEq, Repr

/-- `GameEvent` from types.ts (timestamp not modelled). -/
structure GameEvent where
  type : GameEventType
  payload : EventPayload
  turn : Nat
  phase : GamePhase
deriving DecidableEq, Repr

/-- Log levels of `GameLog`. -/
inductive LogType where
  | INFO | COMBAT | ALERT | SYSTEM
deriving DecidableEq, Repr

/-- `GameLog` from types.ts (timestamp not modelled). -/
structure GameLog where
  turn : Nat
  phase : GamePhase
  message : String
  type : LogType
deriving DecidableEq, Repr

/-- `OrderResult` from types.ts (effects list dropped: the engine never
constructs an `OrderResult`, `pendingResults` stays empty). -/
structure OrderResult where
  orderId : String
  success : Bool
  message : String
deriving DecidableEq, Repr

/-- `TurnRecord` from types.ts (`combats` is always pushed empty and the
snapshot is always `{}` in the source, so both are dropped). -/
structure TurnRecord where
  turn : Nat
  orders : List Order
  results : List OrderResult
deriving DecidableEq, Repr

/-- `GameState` from types.ts, plus the explicit models of the engine's
environment: `events` (the emitted-event trace of the listener bus),
`rolls` (pre-drawn `Math.random` stealth rolls) and `nextId` (fresh unit
ids for `generateId`).  The source's `pendingOrders` map is never written
or read by the engine (orders live in `FactionState.submittedOrders`),
so it is dropped. -/
structure GameState where
  phase : GamePhase
  counters : GlobalCounters
  nodes : List GameNode
  edges : List GameEdge
  units : List Unit
  factions : List FactionState
  turnHistory : List TurnRecord
  logs : List GameLog
  pendingResults : List OrderResult
  events : List GameEvent
  rolls : List Nat
  nextId : Nat
deriving DecidableEq, Repr

-- ===========================================================================
-- Primitive state operations (JS Map access / emit / log / random)
-- ===========================================================================

/-- `this.state.units.get(id)`. -/
def findUnit (s : GameState) (uid : String) : Option Unit :=
  s.units.find? (fun u => u.id = uid)

/-- `this.state.nodes.get(id)`. -/
def findNode (s : GameState) (nid : String) : Option GameNode :=
  s.nodes.find? (fun n => n.id = nid)

/-- `this.state.edges.get(id)`. -/
def findEdge (s : GameState) (eid : String) : Option GameEdge :=
  s.edges.find? (fun e => e.id = eid)

/-- `this.state.factions.get(id)`. -/
def findFaction (s : GameState) (fid : FactionId) : Option FactionState :=
  s.factions.find? (fun f => f.id = fid)

/-- Pointwise update of the units map. -/
def mapUnits (s : GameState) (f : Unit → Unit) : GameState :=
  { s with units := s.units.map f }

/-- Pointwise update of the edges map. -/
def mapEdges (s : GameState) (f : GameEdge → GameEdge) : GameState :=
  { s with edges := s.edges.map f }

/-- Pointwise update of the factions map. -/
def mapFactions (s : GameState) (f : FactionState → FactionState) :
    GameState :=
  { s with factions := s.factions.map f }

/-- In-place mutation of the unit object with the given id. -/
def updateUnit (s : GameState) (uid : String) (f : Unit → Unit) : GameState :=
  mapUnits s (fun u => if u.id = uid then f u else u)

/-- In-place mutation of the node object with the given id. -/
def updateNode (s : GameState) (nid : String) (f : GameNode → GameNode) :
    GameState :=
  { s with nodes := s.nodes.map (fun n => if n.id = nid then f n else n) }

/-- In-place mutation of the edge object with the given id. -/
def updateEdge (s : GameState) (eid : String) (f : GameEdge → GameEdge) :
    GameState :=
  { s with edges := s.edges.map (fun e => if e.id = eid then f e else e) }

/-- In-place mutation of the faction state with the given id. -/
def updateFaction (s : GameState) (fid : FactionId)
    (f : FactionState → FactionState) : GameState :=
  mapFactions s (fun g => if g.id = fid then f g else g)

/-- `this.emit(type, payload)`: appends to the synchronous event trace. -/
def pushEvent (s : GameState) (t : GameEventType) (p : EventPayload) :
    GameState :=
  { s with events := s.events ++ [⟨t, p, s.counters.turn, s.phase⟩] }

/-- `this.log(type, message)`. -/
def pushLog (s : GameState) (ty : LogType) (msg : String) : GameState :=
  { s with logs := s.logs ++ [⟨s.counters.turn, s.phase, msg, ty⟩] }

/-- One `Math.floor(Math.random()*10)+1` draw, from the pre-drawn stream
(default 1 when the stream is exhausted). -/
def drawRoll (s : GameState) : Nat × GameState :=
  match s.rolls with
  | [] => (1, s)
  | r :: rest => (r, { s with rolls := rest })

/-- `this.state.phase = p`. -/
def setPhase (s : GameState) (p : GamePhase) : GameState :=
  { s with phase := p }

/-- `this.state.counters.tas += n`. -/
def addTas (s : GameState) (n : Nat) : GameState :=
  { s with counters := { s.counters with tas := s.counters.tas + n } }

/-- `this.state.counters.kessler += n`. -/
def addKessler (s : GameState) (n : Nat) : GameState :=
  { s with counters := { s.counters with kessler := s.counters.kessler + n } }

/-- `this.state.counters.turn++`. -/
def bumpTurn (s : GameState) : GameState :=
  { s with counters := { s.counters with turn := s.counters.turn + 1 } }

/-- `this.state.units.set(u.id, u)` for a fresh unit, consuming one fresh
id. -/
def addUnit (s : GameState) (u : Unit) : GameState :=
  { s with units := s.units ++ [u], nextId := s.nextId + 1 }

/-- `this.state.turnHistory.push(r)`. -/
def pushHistory (s : GameState) (r : TurnRecord) : GameState :=
  { s with turnHistory := s.turnHistory ++ [r] }

/-- `this.state.pendingResults = []`. -/
def clearPendingResults (s : GameState) : GameState :=
  { s with pendingResults := [] }

/-- `counters.regulatoryPanic = true`. -/
def setLatchPanic (s : GameState) : GameState :=
  { s with counters := { s.counters with regulatoryPanic := true } }

/-- `counters.protocolFailure = true`. -/
def setLatchFailure (s : GameState) : GameState :=
  { s with counters := { s.counters with protocolFailure := true } }

/-- `counters.orbitalCollapse = true`. -/
def setLatchCollapse (s : GameState) : GameState :=
  { s with counters := { s.counters with orbitalCollapse := true } }

/-- `getUnitsAtNode` from the engine (insertion order of the units map). -/
def getUnitsAtNode (s : GameState) (nodeId : String) : List Unit :=
  s.units.filter (fun u => u.location = nodeId)

/-- `getAdjacentNodes` from the engine: both endpoints of every unsevered
edge touching the node, in edge-map insertion order. -/
def getAdjacentNodes (s : GameState) (nodeId : String) : List String :=
  s.edges.foldl
    (fun acc e =>
      if e.isSevered then acc
      else
        let acc := if e.fromNode = nodeId then acc ++ [e.toNode] else acc
        if e.toNode = nodeId then acc ++ [e.fromNode] else acc)
    []

/-- `getEdgeBetween` from the engine: first edge joining the two nodes in
either direction. -/
def getEdgeBetween (s : GameState) (a b : String) : Option GameEdge :=
  s.edges.find? (fun e =>
    (e.fromNode = a && e.toNode = b) || (e.fromNode = b && e.toNode = a))

/-- `destroyUnit` from the engine: delete from the units map and emit
`UNIT_DESTROYED` (no-op when the id is already gone). -/
def destroyUnit (s : GameState) (uid : String) : GameState :=
  match findUnit s uid with
  | none => s
  | some _ =>
      let s := { s with units := s.units.filter (fun u => u.id ≠ uid) }
      pushEvent s .UNIT_DESTROYED (.unitDestroyed uid)

-- ===========================================================================
-- Combat scoring (`resolveCombat`, first half)
-- ===========================================================================

/-- All four combat vectors. -/
def allVectors : List Vector := [.KINETIC, .INFO, .MEMETIC, .LOGIC]

/-- `attackVectors.get(v)` after the counting loop of `resolveCombat`:
how many units of the side carry the given combat vector. -/
def vectorCount (side : List Unit) (v : Vector) : Nat :=
  (side.filter (fun u => (UNIT_STATS u.type).vector = v)).length

/-- `defendVectors.has(v)`: whether the side has any unit of this vector. -/
def hasVector (side : List Unit) (v : Vector) : Bool :=
  side.any (fun u => (UNIT_STATS u.type).vector = v)

/-- One side's total combat power in `resolveCombat`: base score is the unit
count, then for every vector present on this side whose beaten vector (per
`VECTOR_SUPERIORITY`) is present on the opposing side, the full per-vector
unit count is added once.  Both sides' powers are computed from the two
pre-bonus vector multisets (the iteration over the four vectors stands for
the iteration over the side's vector-count map; a vector absent from the
side contributes `vectorCount = 0`, matching its absence from the map). -/
def sidePower (mine opp : List Unit) : Nat :=
  mine.length +
    allVectors.foldl
      (fun acc v =>
        if 0 < vectorCount mine v ∧ hasVector opp (VECTOR_SUPERIORITY v) then
          acc + vectorCount mine v
        else acc)
      0

-- ===========================================================================
-- Order validation and submission
-- ===========================================================================

/-- The `{ valid, reason? }` result of `validateOrder`. -/
structure Validation where
  valid : Bool
  reason : String := ""
deriving DecidableEq, Repr

/-- `validateOrder` from the engine, with its three sequential early-return
blocks: unit existence/ownership/`hasActed` for unit-based orders, MOVE
adjacency, FILTER legality. -/
def validateOrder (s : GameState) (order : Order) (factionId : FactionId) :
    Validation :=
  let unitCheck : Option Validation :=
    if order.unitId ≠ "" ∧ order.type ≠ .BUILD ∧ order.type ≠ .RESEARCH then
      match findUnit s order.unitId with
      | none => some ⟨false, "unit not found"⟩
      | some u =>
          if u.owner ≠ factionId then some ⟨false, "unit not owned"⟩
          else if u.hasActed then some ⟨false, "unit has already acted"⟩
          else none
    else none
  match unitCheck with
  | some v => v
  | none =>
    let moveCheck : Option Validation :=
      match order.type, order.targetNodeId with
      | .MOVE, some target =>
          match findUnit s order.unitId with
          | some unit =>
              if target ∈ getAdjacentNodes s unit.location then none
              else some ⟨false, "target not adjacent to unit location"⟩
          | none => none
      | _, _ => none
    match moveCheck with
    | some v => v
    | none =>
      let filterCheck : Option Validation :=
        match order.type, order.targetEdgeId with
        | .FILTER, some eid =>
            match findUnit s order.unitId, findEdge s eid with
            | some unit, some edge =>
                if ¬ (UNIT_STATS unit.type).canFilter then
                  some ⟨false, "unit cannot filter"⟩
                else if edge.type ≠ .CABLE then
                  some ⟨false, "can only filter cables"⟩
                else if edge.fromNode ≠ unit.location ∧
                    edge.toNode ≠ unit.location then
                  some ⟨false, "unit not adjacent to edge"⟩
                else none
            | _, _ => some ⟨false, "invalid filter target"⟩
        | _, _ => none
      match filterCheck with
      | some v => v
      | none => ⟨true, ""⟩

/-- The `{ success, message }` result of `submitOrders`. -/
structure SubmitResult where
  success : Bool
  message : String
deriving DecidableEq, Repr

/-- `submitOrders` from the engine: phase gate, faction lookup, then every
order of the batch is validated against the current state; the first
invalid order rejects the whole submission (nothing is stored), otherwise
the whole batch is appended to the faction's `submittedOrders`. -/
def submitOrders (s : GameState) (factionId : FactionId)
    (orders : List Order) : GameState × SubmitResult :=
  if s.phase ≠ .ALLOCATION ∧ s.phase ≠ .ACTION_DECLARATION then
    (s, ⟨false, "cannot submit orders during this phase"⟩)
  else
    match findFaction s factionId with
    | none => (s, ⟨false, "unknown faction"⟩)
    | some _ =>
        match orders.find? (fun o => !(validateOrder s o factionId).valid) with
        | some bad =>
            (s, ⟨false, "invalid order: " ++
                  (validateOrder s bad factionId).reason⟩)
        | none =>
            let s := updateFaction s factionId (fun f =>
              { f with submittedOrders := f.submittedOrders ++ orders })
            let s := pushLog s .INFO "orders submitted"
            let s := pushEvent s .ORDER_SUBMITTED
              (.orderSubmitted factionId orders.length)
            (s, ⟨true, "orders accepted"⟩)

-- ===========================================================================
-- Order resolution: allocation band
-- ===========================================================================

/-- The `typePriority` table of `sortOrders`. -/
def typePriority : OrderType → Nat
  | .BUILD => 0 | .RESEARCH => 0
  | .FILTER => 1 | .AUDIT => 1 | .SABOTAGE => 1 | .ANTI_SAT => 1
  | .CONVERT => 1
  | .HOLD => 2 | .SUPPORT => 2
  | .MOVE => 3 | .ATTACK => 3

/-- The comparator of `sortOrders` as a total boolean `≤`: type-priority
band first, numeric `priority` second. -/
def orderLe (a b : Order) : Bool :=
  typePriority a.type < typePriority b.type ||
    (typePriority a.type = typePriority b.type && a.priority ≤ b.priority)

/-- `sortOrders`: JS `Array.prototype.sort` is stable, modelled by stable
merge sort with the same comparator. -/
def sortOrders (orders : List Order) : List Order :=
  orders.mergeSort orderLe

/-- `resolveResearch`: fixed 2-FLOPs cost, TAS +2, optional tech-domain
bump with the unlock sweep over `TECH_TREE`, then the `TAS_THRESHOLD`
`{ tas, delta }` emission. -/
def resolveResearch (s : GameState) (order : Order) (fid : FactionId) :
    GameState :=
  match findFaction s fid with
  | none => s
  | some faction =>
      if faction.flops < 2 then
        pushLog s .INFO "cannot afford research"
      else
        let s := updateFaction s fid (fun f => { f with flops := f.flops - 2 })
        let s := addTas s 2
        let s :=
          match order.techDomain with
          | none => s
          | some d =>
              let s := updateFaction s fid (fun f =>
                { f with techLevel := f.techLevel.bump d })
              TECH_TREE.foldl
                (fun s tech =>
                  match findFaction s fid with
                  | none => s
                  | some f =>
                      if tech.domain = d ∧
                          f.techLevel.get tech.domain ≥ tech.level ∧
                          ¬ tech.id ∈ f.unlockedTechs then
                        let s := updateFaction s fid (fun g =>
                          { g with unlockedTechs :=
                              g.unlockedTechs ++ [tech.id] })
                        let s := pushLog s .ALERT "tech unlocked"
                        pushEvent s .TECH_UNLOCKED (.techUnlocked fid tech.id)
                      else s)
                s
        let s := pushLog s .INFO "research conducted"
        pushEvent s .TAS_THRESHOLD (.tasDelta s.counters.tas 2)

/-- `resolveBuild`: affordability in the unit kind's currency, node
ownership, orbital-layer capability; only after all three checks pass is
the cost deducted and the unit created with `hasActed := true`,
`turnsOnNode := 0`. -/
def resolveBuild (s : GameState) (order : Order) (fid : FactionId) :
    GameState :=
  match order.unitTypeToBuild, order.targetNodeId with
  | some ut, some targetNodeId =>
      match findFaction s fid with
      | none => s
      | some faction =>
          let stats := UNIT_STATS ut
          if stats.currency = .F ∧ faction.flops < stats.cost then
            pushLog s .INFO "cannot afford build"
          else if stats.currency = .I ∧ faction.influence < stats.cost then
            pushLog s .INFO "cannot afford build"
          else
            match findNode s targetNodeId with
            | none => pushLog s .INFO "cannot build - not owned"
            | some node =>
                if node.owner ≠ some fid then
                  pushLog s .INFO "cannot build - not owned"
                else if node.layer = .ORBITAL ∧ ¬ stats.canOrbit then
                  pushLog s .INFO "cannot build in orbital layer"
                else
                  let s := updateFaction s fid (fun f =>
                    if stats.currency = .F then
                      { f with flops := f.flops - stats.cost }
                    else
                      { f with influence := f.influence - stats.cost })
                  let newUnit : Unit :=
                    { id := "u_" ++ toString s.nextId, type := ut,
                      owner := fid, location := targetNodeId,
                      stealthLevel := stats.stealth, isRevealed := false,
                      hasActed := true, turnsOnNode := 0 }
                  let s := addUnit s newUnit
                  let s := pushLog s .INFO "unit built"
                  pushEvent s .UNIT_CREATED (.unitCreated newUnit.id)
  | _, _ => s

/-- `resolveAllocationOrder`: faction lookup, then dispatch. -/
def resolveAllocationOrder (s : GameState) (order : Order) : GameState :=
  match findFaction s order.faction with
  | none => s
  | some _ =>
      match order.type with
      | .RESEARCH => resolveResearch s order order.faction
      | .BUILD => resolveBuild s order order.faction
      | _ => s

-- ===========================================================================
-- Order resolution: special band
-- ===========================================================================

/-- `resolveFilter`: sets `filteredBy` / `filterStrength` on a cable edge. -/
def resolveFilter (s : GameState) (order : Order) (unit : Unit) : GameState :=
  match order.targetEdgeId with
  | none => s
  | some eid =>
      match findEdge s eid with
      | none => s
      | some edge =>
          if edge.type ≠ .CABLE then s
          else
            match findFaction s unit.owner with
            | none => s
            | some faction =>
                let s := updateEdge s eid (fun e =>
                  { e with filteredBy := some unit.owner,
                           filterStrength := faction.techLevel.LOGIC + 2 })
                let s := pushLog s .ALERT "filter established"
                pushEvent s .EDGE_FILTERED (.edgeFiltered eid unit.owner)

/-- `resolveAudit`: reveals every co-located enemy unit, and each revealed
SWARM undergoes a stealth check against the auditor faction's LOGIC tech
level; failure destroys it. -/
def resolveAudit (s : GameState) (order : Order) (unit : Unit) : GameState :=
  let targetNode := order.targetNodeId.getD unit.location
  let unitsAtNode := getUnitsAtNode s targetNode
  match findFaction s unit.owner with
  | none => s
  | some faction =>
      let logicLevel := faction.techLevel.LOGIC
      unitsAtNode.foldl
        (fun s target =>
          if target.owner = unit.owner then s
          else
            let s := updateUnit s target.id (fun u =>
              { u with isRevealed := true })
            let s := updateFaction s unit.owner (fun f =>
              if target.id ∈ f.revealedEnemies then f
              else { f with revealedEnemies :=
                f.revealedEnemies ++ [target.id] })
            let s := pushLog s .COMBAT "auditor revealed unit"
            let s := pushEvent s .UNIT_REVEALED
              (.unitRevealed target.id unit.owner)
            if target.type = .SWARM then
              let roll := (drawRoll s).1
              let s := (drawRoll s).2
              if roll + target.stealthLevel ≥ logicLevel then s
              else
                let s := destroyUnit s target.id
                pushLog s .COMBAT "swarm neutralized"
            else s)
        s

/-- `resolveAntiSat`: KINETIC-vector units only; Kessler +15, TAS +1, and
an optional orbital target loses 30 infrastructure (floored at 0 — `Nat`
truncated subtraction models `Math.max(0, x - 30)`). -/
def resolveAntiSat (s : GameState) (order : Order) (unit : Unit) :
    GameState :=
  if (UNIT_STATS unit.type).vector ≠ .KINETIC then s
  else
    let s := addKessler s 15
    let s := addTas s 1
    let s := pushLog s .ALERT "anti-sat strike"
    let s := pushEvent s .KESSLER_THRESHOLD
      (.kesslerDelta s.counters.kessler 15)
    match order.targetNodeId with
    | none => s
    | some nid =>
        match findNode s nid with
        | none => s
        | some node =>
            if node.layer = .ORBITAL then
              let s := updateNode s nid (fun n =>
                { n with infrastructure := n.infrastructure - 30 })
              pushLog s .COMBAT "orbital strike damaged infrastructure"
            else s

/-- `resolveSabotage`: requires the unit at or adjacent to the target node;
infrastructure −25 (floored at 0), TAS +1. -/
def resolveSabotage (s : GameState) (order : Order) (unit : Unit) :
    GameState :=
  match order.targetNodeId with
  | none => s
  | some nid =>
      match findNode s nid with
      | none => s
      | some _ =>
          if unit.location ≠ nid ∧ ¬ nid ∈ getAdjacentNodes s unit.location
          then s
          else
            let s := updateNode s nid (fun n =>
              { n with infrastructure := n.infrastructure - 25 })
            let s := addTas s 1
            pushLog s .COMBAT "node sabotaged"

/-- `resolveConvert`: a CULT on a HUB (after `CULT_TURNS` turns) flips
ownership and sets `isCultNode`; a SWARM on a DC or HUB (after
`ZOMBIE_TURNS` turns) flips ownership and sets `isZombie`. -/
def resolveConvert (s : GameState) (unit : Unit) : GameState :=
  match findNode s unit.location with
  | none => s
  | some node =>
      if unit.type = .CULT ∧ node.type = .HUB then
        if unit.turnsOnNode ≥ CULT_TURNS then
          let s := updateNode s node.id (fun n =>
            { n with owner := some unit.owner, isCultNode := true })
          let s := pushLog s .ALERT "cult converted node"
          pushEvent s .NODE_CONVERTED (.nodeConverted node.id unit.owner "CULT")
        else s
      else if unit.type = .SWARM ∧ (node.type = .DC ∨ node.type = .HUB) then
        if unit.turnsOnNode ≥ ZOMBIE_TURNS then
          let s := updateNode s node.id (fun n =>
            { n with isZombie := true, owner := some unit.owner })
          let s := pushLog s .ALERT "node converted to zombie"
          pushEvent s .NODE_CONVERTED
            (.nodeConverted node.id unit.owner "ZOMBIE")
        else s
      else s

/-- `resolveSpecialOrder`: unit lookup, dispatch, then `hasActed := true`
on the acting unit regardless of outcome. -/
def resolveSpecialOrder (s : GameState) (order : Order) : GameState :=
  match findUnit s order.unitId with
  | none => s
  | some unit =>
      let s :=
        match order.type with
        | .FILTER => resolveFilter s order unit
        | .AUDIT => resolveAudit s order unit
        | .ANTI_SAT => resolveAntiSat s order unit
        | .SABOTAGE => resolveSabotage s order unit
        | .CONVERT => resolveConvert s unit
        | _ => s
      updateUnit s order.unitId (fun u => { u with hasActed := true })

-- ===========================================================================
-- Order resolution: movement/combat band
-- ===========================================================================

/-- `resolveCombat` from the engine: both powers come from the pre-bonus
unit lists via `sidePower`; strictly higher total destroys the losing
side's units wholesale; on an attacker win the attackers relocate
(`turnsOnNode := 0`, `hasActed := true`) and the node's owner becomes the
first attacker's faction; equal totals change neither units nor nodes.
Any kinetic unit present on either side adds TAS +1 regardless. -/
def resolveCombat (s : GameState) (attackers defenders : List Unit)
    (nodeId : String) : GameState :=
  let attackPower := sidePower attackers defenders
  let defendPower := sidePower defenders attackers
  let result : CombatSide :=
    if attackPower > defendPower then .ATTACKER
    else if defendPower > attackPower then .DEFENDER
    else .STANDOFF
  let casualties : List String :=
    if attackPower > defendPower then defenders.map (fun d => d.id)
    else if defendPower > attackPower then attackers.map (fun a => a.id)
    else []
  let s :=
    if attackPower > defendPower then
      let s := defenders.foldl (fun s d => destroyUnit s d.id) s
      let s := attackers.foldl
        (fun s a => updateUnit s a.id (fun u =>
          { u with location := nodeId, turnsOnNode := 0, hasActed := true }))
        s
      match findNode s nodeId with
      | none => s
      | some _ =>
          match attackers.head? with
          | none => s
          | some firstAtk =>
              let s := updateNode s nodeId (fun n =>
                { n with owner := some firstAtk.owner })
              pushEvent s .NODE_CAPTURED (.nodeCaptured nodeId firstAtk.owner)
    else if defendPower > attackPower then
      attackers.foldl (fun s a => destroyUnit s a.id) s
    else s
  let kineticInvolved := (attackers ++ defenders).any
    (fun u => (UNIT_STATS u.type).vector = .KINETIC)
  let s := if kineticInvolved then addTas s 1 else s
  let s := pushLog s .COMBAT "combat resolved"
  pushEvent s .COMBAT_RESOLVED
    (.combatResolved nodeId result casualties attackPower defendPower)

/-- One entry of the `movesByDest` grouping: the order and its acting
unit's id (the source stores a live object reference; the id re-reads the
current unit at each use, and a unit destroyed earlier in the same pass is
skipped — the source would read its now-detached stale object, with no
observable state difference). -/
structure Mover where
  order : Order
  unitId : String
deriving DecidableEq, Repr

/-- One step of the grouping loop of `resolveMovementPhase`: HOLD and
SUPPORT orders are skipped before grouping; a MOVE/ATTACK with an existing
unit is keyed by `targetNodeId` (defaulting to the unit's current node). -/
def movementStep (s : GameState) (acc : List (String × Mover))
    (order : Order) : List (String × Mover) :=
  if order.type ≠ .MOVE ∧ order.type ≠ .ATTACK then acc
  else
    match findUnit s order.unitId with
    | none => acc
    | some unit =>
        acc ++ [(order.targetNodeId.getD unit.location, ⟨order, unit.id⟩)]

/-- The full `movesByDest` grouping loop. -/
def movementPairs (s : GameState) (orders : List Order) :
    List (String × Mover) :=
  orders.foldl (movementStep s) []

/-- The destination keys of `movesByDest` in first-insertion order (JS Map
key iteration order). -/
def destKeys (pairs : List (String × Mover)) : List String :=
  pairs.foldl (fun acc p => if p.1 ∈ acc then acc else acc ++ [p.1]) []

/-- One mover's filtered-cable stealth check in `resolveMovementPhase`:
crossing an edge filtered by a different faction rolls a stealth check,
failure destroys the mover immediately (a mover already destroyed earlier
in the pass is skipped). -/
def stealthCheckStep (nodeId : String) (s : GameState) (m : Mover) :
    GameState :=
  match findUnit s m.unitId with
  | none => s
  | some unit =>
      match getEdgeBetween s unit.location nodeId with
      | none => s
      | some edge =>
          match edge.filteredBy with
          | none => s
          | some fb =>
              if fb = unit.owner then s
              else
                match findFaction s fb with
                | none => s
                | some _ =>
                    let roll := (drawRoll s).1
                    let s2 := (drawRoll s).2
                    if roll + unit.stealthLevel ≥ edge.filterStrength
                    then s2
                    else
                      let s3 := destroyUnit s2 m.unitId
                      pushLog s3 .COMBAT "intercepted by filter"

/-- One surviving mover's unopposed relocation: move in, reset
`turnsOnNode`, set `hasActed`, and capture the node if it is not already
owned by the mover's faction. -/
def unopposedMoveStep (nodeId : String) (s : GameState) (m : Mover) :
    GameState :=
  let s := updateUnit s m.unitId (fun u =>
    { u with location := nodeId, turnsOnNode := 0, hasActed := true })
  match findUnit s m.unitId with
  | none => s
  | some unit =>
      match findNode s nodeId with
      | none => s
      | some node =>
          if node.owner ≠ some unit.owner then
            let s := updateNode s nodeId (fun n =>
              { n with owner := some unit.owner })
            let s := pushLog s .INFO "node captured"
            pushEvent s .NODE_CAPTURED (.nodeCaptured nodeId unit.owner)
          else s

/-- Resolution of one contested destination: defenders are the units
already at the node outside the mover set; each mover crossing an edge
filtered by another faction takes a stealth check, failure destroying it;
surviving movers then fight the defenders or move in unopposed (capturing
an un-owned/enemy node). -/
def resolveDestination (pairs : List (String × Mover)) (s : GameState)
    (nodeId : String) : GameState :=
  let movers := (pairs.filter (fun p => p.1 = nodeId)).map (fun p => p.2)
  let defenders := (getUnitsAtNode s nodeId).filter
    (fun u => ¬ movers.any (fun m => m.unitId = u.id))
  let s := movers.foldl (stealthCheckStep nodeId) s
  let survivingMovers := movers.filter (fun m => (findUnit s m.unitId).isSome)
  if survivingMovers.isEmpty then s
  else if ¬ defenders.isEmpty then
    resolveCombat s (survivingMovers.filterMap (fun m => findUnit s m.unitId))
      defenders nodeId
  else
    survivingMovers.foldl (unopposedMoveStep nodeId) s

/-- `resolveMovementPhase`: group by destination, then resolve every
destination group in key order. -/
def resolveMovementPhase (s : GameState) (orders : List Order) : GameState :=
  let pairs := movementPairs s orders
  (destKeys pairs).foldl (resolveDestination pairs) s

-- ===========================================================================
-- Full resolution pass and phase machine
-- ===========================================================================

/-- The allocation band filter of `resolveAllOrders`. -/
def isAllocationOrder (o : Order) : Bool :=
  o.type = .BUILD || o.type = .RESEARCH

/-- The special band filter of `resolveAllOrders`. -/
def isSpecialOrder (o : Order) : Bool :=
  o.type = .FILTER || o.type = .AUDIT || o.type = .ANTI_SAT ||
    o.type = .SABOTAGE || o.type = .CONVERT

/-- The movement band filter of `resolveAllOrders`. -/
def isMovementOrder (o : Order) : Bool :=
  o.type = .MOVE || o.type = .ATTACK || o.type = .SUPPORT || o.type = .HOLD

/-- `resolveAllOrders`: drain every faction's submitted orders, sort, then
run the three bands in sequence. -/
def resolveAllOrders (s : GameState) : GameState :=
  let allOrders := s.factions.foldl (fun acc f => acc ++ f.submittedOrders) []
  let sorted := sortOrders allOrders
  let s := (sorted.filter isAllocationOrder).foldl resolveAllocationOrder s
  let s := (sorted.filter isSpecialOrder).foldl resolveSpecialOrder s
  resolveMovementPhase s (sorted.filter isMovementOrder)

/-- `generateResources`: every non-neutral owned node credits its faction
`floor(yield × infrastructure / 100)` of each currency (the JS
floating-point `Math.floor(a * (b/100))` is modelled as the rational
floor `a * b / 100` on `Nat`).  `resourceStep` is the per-node body. -/
def resourceStep (s : GameState) (node : GameNode) : GameState :=
  match node.owner with
  | none => s
  | some fid =>
      if fid = .NEUTRAL then s
      else
        match findFaction s fid with
        | none => s
        | some _ =>
            updateFaction s fid (fun f =>
              { f with
                flops := f.flops + node.flops * node.infrastructure / 100,
                influence := f.influence +
                  node.influence * node.infrastructure / 100 })

def generateResources (s : GameState) : GameState :=
  let s := s.nodes.foldl resourceStep s
  pushLog s .INFO "resources generated"

/-- The per-unit body of the orbital-collapse destruction loop: any unit
standing on an orbital-layer node is destroyed. -/
def orbitalDestroyStep (s : GameState) (u : Unit) : GameState :=
  match findNode s u.location with
  | none => s
  | some node =>
      if node.layer = .ORBITAL then destroyUnit s u.id else s

/-- First threshold block of `checkGlobalThresholds`: the TAS panic latch
(inclusive `≥ TAS_PANIC`), emitting the `TAS_THRESHOLD`/PANIC alert only
when the latch was not yet set. -/
def tasPanicStage (s : GameState) : GameState :=
  if s.counters.tas ≥ TAS_PANIC ∧ s.counters.regulatoryPanic = false then
    let s := setLatchPanic s
    let s := pushLog s .ALERT "regulatory panic"
    pushEvent s .TAS_THRESHOLD (.tasThreshold s.counters.tas "PANIC")
  else s

/-- Second threshold block: the TAS protocol-failure latch, emitting
`GAME_OVER` with reason PROTOCOL_FAILURE. -/
def tasFailureStage (s : GameState) : GameState :=
  if s.counters.tas ≥ TAS_FAILURE ∧ s.counters.protocolFailure = false then
    let s := setLatchFailure s
    let s := pushLog s .ALERT "protocol failure"
    pushEvent s .GAME_OVER (.gameOver "PROTOCOL_FAILURE" s.counters.tas)
  else s

/-- Third threshold block: the Kessler collapse latch; severs every laser
edge and destroys every unit on an orbital node. -/
def kesslerStage (s : GameState) : GameState :=
  if s.counters.kessler ≥ KESSLER_COLLAPSE ∧
      s.counters.orbitalCollapse = false then
    let s := setLatchCollapse s
    let s := pushLog s .ALERT "kessler syndrome"
    let s := mapEdges s (fun e =>
      if e.type = .LASER then { e with isSevered := true } else e)
    let s := s.units.foldl orbitalDestroyStep s
    pushEvent s .KESSLER_THRESHOLD
      (.kesslerThreshold s.counters.kessler "COLLAPSE")
  else s

/-- `checkGlobalThresholds`: the TAS panic latch (≥ `TAS_PANIC`, emits the
`TAS_THRESHOLD`/PANIC alert once), the TAS failure latch (≥ `TAS_FAILURE`,
emits `GAME_OVER`/PROTOCOL_FAILURE), and the Kessler collapse latch
(≥ `KESSLER_COLLAPSE`: severs all laser edges and destroys all units on
orbital nodes), run in this order. -/
def checkGlobalThresholds (s : GameState) : GameState :=
  kesslerStage (tasFailureStage (tasPanicStage s))

/-- `incrementTurnsOnNodes`: every unit's `turnsOnNode` goes up by one. -/
def incrementTurnsOnNodes (s : GameState) : GameState :=
  mapUnits s (fun u => { u with turnsOnNode := u.turnsOnNode + 1 })

/-- The body of the `checkFootholdConversions` loop for one unit: only
SWARM units auto-convert, guarded by the `isZombie` idempotence flag. -/
def footholdStep (s : GameState) (u : Unit) : GameState :=
  if u.type = .SWARM ∧ u.turnsOnNode ≥ ZOMBIE_TURNS then
    match findNode s u.location with
    | none => s
    | some node =>
        if node.isZombie = false ∧ (node.type = .DC ∨ node.type = .HUB) then
          let s := updateNode s u.location (fun n =>
            { n with isZombie := true, owner := some u.owner })
          let s := pushLog s .ALERT "auto-converted to zombie"
          pushEvent s .NODE_CONVERTED (.nodeConverted node.id u.owner "ZOMBIE")
        else s
  else s

/-- `checkFootholdConversions` from the engine. -/
def checkFootholdConversions (s : GameState) : GameState :=
  s.units.foldl footholdStep s

/-- `endTurn`: archive the turn, clear submitted orders and pending
results, reset per-unit `hasActed`/`isRevealed`, advance the turn counter
and return to NEGOTIATION. -/
def endTurn (s : GameState) : GameState :=
  let allOrders : List Order :=
    s.factions.foldl (fun acc f => acc ++ f.submittedOrders) []
  let s := mapFactions s (fun f => { f with submittedOrders := [] })
  let s := pushHistory s ⟨s.counters.turn, allOrders, s.pendingResults⟩
  let s := clearPendingResults s
  let s := mapUnits s (fun u =>
    { u with hasActed := false, isRevealed := false })
  let s := setPhase (bumpTurn s) .NEGOTIATION
  let s := pushLog s .SYSTEM "turn begins"
  pushEvent s .TURN_STARTED (.turnStarted s.counters.turn)

/-- `advancePhase`: the five-phase cycle with its per-transition side
effects, followed by the `PHASE_CHANGED` emission. -/
def advancePhase (s : GameState) : GameState :=
  let previousPhase := s.phase
  let s :=
    match s.phase with
    | .NEGOTIATION =>
        pushLog (setPhase s .ALLOCATION) .SYSTEM "phase allocation"
    | .ALLOCATION =>
        pushLog (setPhase s .ACTION_DECLARATION) .SYSTEM
          "phase action declaration"
    | .ACTION_DECLARATION =>
        let s := pushLog (setPhase s .RESOLUTION) .SYSTEM "phase resolution"
        resolveAllOrders s
    | .RESOLUTION =>
        let s := pushLog (setPhase s .TURN_END) .SYSTEM "phase turn end"
        let s := generateResources s
        let s := checkGlobalThresholds s
        let s := incrementTurnsOnNodes s
        checkFootholdConversions s
    | .TURN_END => endTurn s
  pushEvent s .PHASE_CHANGED (.phaseChanged previousPhase s.phase)

/-- The engine's public mutation surface: a submitted batch or a phase
advance. -/
inductive Op where
  | submit (fid : FactionId) (orders : List Order)
  | advance
deriving Repr

/-- Apply one public operation. -/
def applyOp (s : GameState) : Op → GameState
  | .submit fid orders => (submitOrders s fid orders).1
  | .advance => advancePhase s

/-- Apply a sequence of public operations. -/
def runOps (s : GameState) (ops : List Op) : GameState :=
  ops.foldl applyOp s

/-- `getUnitsForFaction` from the engine's query surface. -/
def getUnitsForFaction (s : GameState) (fid : FactionId) : List Unit :=
  s.units.filter (fun u => u.owner = fid)

-- ===========================================================================
-- Basic lemmas about the primitive state operations
-- ===========================================================================

@[simp] lemma pushLog_phase (s : GameState) (t : LogType) (m : String) :
    (pushLog s t m).phase = s.phase := rfl
@[simp] lemma pushLog_counters (s : GameState) (t : LogType) (m : String) :
    (pushLog s t m).counters = s.counters := rfl
@[simp] lemma pushLog_nodes (s : GameState) (t : LogType) (m : String) :
    (pushLog s t m).nodes = s.nodes := rfl
@[simp] lemma pushLog_edges (s : GameState) (t : LogType) (m : String) :
    (pushLog s t m).edges = s.edges := rfl
@[simp] lemma pushLog_units (s : GameState) (t : LogType) (m : String) :
    (pushLog s t m).units = s.units := rfl
@[simp] lemma pushLog_factions (s : GameState) (t : LogType) (m : String) :
    (pushLog s t m).factions = s.factions := rfl
@[simp] lemma pushLog_events (s : GameState) (t : LogType) (m : String) :
    (pushLog s t m).events = s.events := rfl
@[simp] lemma pushLog_rolls (s : GameState) (t : LogType) (m : String) :
    (pushLog s t m).rolls = s.rolls := rfl

@[simp] lemma pushEvent_phase (s : GameState) (t : GameEventType)
    (p : EventPayload) : (pushEvent s t p).phase = s.phase := rfl
@[simp] lemma pushEvent_counters (s : GameState) (t : GameEventType)
    (p : EventPayload) : (pushEvent s t p).counters = s.counters := rfl
@[simp] lemma pushEvent_nodes (s : GameState) (t : GameEventType)
    (p : EventPayload) : (pushEvent s t p).nodes = s.nodes := rfl
@[simp] lemma pushEvent_edges (s : GameState) (t : GameEventType)
    (p : EventPayload) : (pushEvent s t p).edges = s.edges := rfl
@[simp] lemma pushEvent_units (s : GameState) (t : GameEventType)
    (p : EventPayload) : (pushEvent s t p).units = s.units := rfl
@[simp] lemma pushEvent_factions (s : GameState) (t : GameEventType)
    (p : EventPayload) : (pushEvent s t p).factions = s.factions := rfl
@[simp] lemma pushEvent_events (s : GameState) (t : GameEventType)
    (p : EventPayload) :
    (pushEvent s t p).events = s.events ++ [⟨t, p, s.counters.turn, s.phase⟩] :=
  rfl
@[simp] lemma pushEvent_rolls (s : GameState) (t : GameEventType)
    (p : EventPayload) : (pushEvent s t p).rolls = s.rolls := rfl

@[simp] lemma mapUnits_phase (s : GameState) (f : Unit → Unit) :
    (mapUnits s f).phase = s.phase := rfl
@[simp] lemma mapUnits_counters (s : GameState) (f : Unit → Unit) :
    (mapUnits s f).counters = s.counters := rfl
@[simp] lemma mapUnits_nodes (s : GameState) (f : Unit → Unit) :
    (mapUnits s f).nodes = s.nodes := rfl
@[simp] lemma mapUnits_edges (s : GameState) (f : Unit → Unit) :
    (mapUnits s f).edges = s.edges := rfl
@[simp] lemma mapUnits_units (s : GameState) (f : Unit → Unit) :
    (mapUnits s f).units = s.units.map f := rfl
@[simp] lemma mapUnits_factions (s : GameState) (f : Unit → Unit) :
    (mapUnits s f).factions = s.factions := rfl
@[simp] lemma mapUnits_events (s : GameState) (f : Unit → Unit) :
    (mapUnits s f).events = s.events := rfl

@[simp] lemma mapEdges_counters (s : GameState) (f : GameEdge → GameEdge) :
    (mapEdges s f).counters = s.counters := rfl
@[simp] lemma mapEdges_nodes (s : GameState) (f : GameEdge → GameEdge) :
    (mapEdges s f).nodes = s.nodes := rfl
@[simp] lemma mapEdges_units (s : GameState) (f : GameEdge → GameEdge) :
    (mapEdges s f).units = s.units := rfl
@[simp] lemma mapEdges_factions (s : GameState) (f : GameEdge → GameEdge) :
    (mapEdges s f).factions = s.factions := rfl
@[simp] lemma mapEdges_events (s : GameState) (f : GameEdge → GameEdge) :
    (mapEdges s f).events = s.events := rfl

@[simp] lemma mapFactions_phase (s : GameState)
    (f : FactionState → FactionState) : (mapFactions s f).phase = s.phase := rfl
@[simp] lemma mapFactions_counters (s : GameState)
    (f : FactionState → FactionState) :
    (mapFactions s f).counters = s.counters := rfl
@[simp] lemma mapFactions_nodes (s : GameState)
    (f : FactionState → FactionState) : (mapFactions s f).nodes = s.nodes := rfl
@[simp] lemma mapFactions_edges (s : GameState)
    (f : FactionState → FactionState) : (mapFactions s f).edges = s.edges := rfl
@[simp] lemma mapFactions_units (s : GameState)
    (f : FactionState → FactionState) : (mapFactions s f).units = s.units := rfl
@[simp] lemma mapFactions_factions (s : GameState)
    (f : FactionState → FactionState) :
    (mapFactions s f).factions = s.factions.map f := rfl
@[simp] lemma mapFactions_events (s : GameState)
    (f : FactionState → FactionState) :
    (mapFactions s f).events = s.events := rfl

@[simp] lemma updateNode_counters (s : GameState) (nid : String)
    (f : GameNode → GameNode) : (updateNode s nid f).counters = s.counters :=
  rfl
@[simp] lemma updateNode_units (s : GameState) (nid : String)
    (f : GameNode → GameNode) : (updateNode s nid f).units = s.units := rfl
@[simp] lemma updateNode_edges (s : GameState) (nid : String)
    (f : GameNode → GameNode) : (updateNode s nid f).edges = s.edges := rfl
@[simp] lemma updateNode_factions (s : GameState) (nid : String)
    (f : GameNode → GameNode) : (updateNode s nid f).factions = s.factions :=
  rfl
@[simp] lemma updateNode_events (s : GameState) (nid : String)
    (f : GameNode → GameNode) : (updateNode s nid f).events = s.events := rfl
@[simp] lemma updateNode_nodes (s : GameState) (nid : String)
    (f : GameNode → GameNode) :
    (updateNode s nid f).nodes =
      s.nodes.map (fun n => if n.id = nid then f n else n) := rfl

@[simp] lemma updateEdge_counters (s : GameState) (eid : String)
    (f : GameEdge → GameEdge) : (updateEdge s eid f).counters = s.counters :=
  rfl
@[simp] lemma updateEdge_events (s : GameState) (eid : String)
    (f : GameEdge → GameEdge) : (updateEdge s eid f).events = s.events := rfl
@[simp] lemma updateEdge_units (s : GameState) (eid : String)
    (f : GameEdge → GameEdge) : (updateEdge s eid f).units = s.units := rfl
@[simp] lemma updateEdge_nodes (s : GameState) (eid : String)
    (f : GameEdge → GameEdge) : (updateEdge s eid f).nodes = s.nodes := rfl
@[simp] lemma updateEdge_factions (s : GameState) (eid : String)
    (f : GameEdge → GameEdge) : (updateEdge s eid f).factions = s.factions :=
  rfl

@[simp] lemma destroyUnit_counters (s : GameState) (uid : String) :
    (destroyUnit s uid).counters = s.counters := by
  unfold destroyUnit; split <;> rfl
@[simp] lemma destroyUnit_nodes (s : GameState) (uid : String) :
    (destroyUnit s uid).nodes = s.nodes := by
  unfold destroyUnit; split <;> rfl
@[simp] lemma destroyUnit_edges (s : GameState) (uid : String) :
    (destroyUnit s uid).edges = s.edges := by
  unfold destroyUnit; split <;> rfl
@[simp] lemma destroyUnit_factions (s : GameState) (uid : String) :
    (destroyUnit s uid).factions = s.factions := by
  unfold destroyUnit; split <;> rfl

/-- `updateUnit` (and the other keyed updates) never touch other fields. -/
@[simp] lemma updateUnit_counters (s : GameState) (uid : String)
    (f : Unit → Unit) : (updateUnit s uid f).counters = s.counters := rfl
@[simp] lemma updateUnit_nodes (s : GameState) (uid : String)
    (f : Unit → Unit) : (updateUnit s uid f).nodes = s.nodes := rfl
@[simp] lemma updateUnit_events (s : GameState) (uid : String)
    (f : Unit → Unit) : (updateUnit s uid f).events = s.events := rfl
@[simp] lemma updateFaction_counters (s : GameState) (fid : FactionId)
    (f : FactionState → FactionState) :
    (updateFaction s fid f).counters = s.counters := rfl
@[simp] lemma updateFaction_events (s : GameState) (fid : FactionId)
    (f : FactionState → FactionState) :
    (updateFaction s fid f).events = s.events := rfl
@[simp] lemma updateFaction_nodes (s : GameState) (fid : FactionId)
    (f : FactionState → FactionState) :
    (updateFaction s fid f).nodes = s.nodes := rfl
@[simp] lemma updateFaction_units (s : GameState) (fid : FactionId)
    (f : FactionState → FactionState) :
    (updateFaction s fid f).units = s.units := rfl

@[simp] lemma setPhase_counters (s : GameState) (p : GamePhase) :
    (setPhase s p).counters = s.counters := rfl
@[simp] lemma setPhase_units (s : GameState) (p : GamePhase) :
    (setPhase s p).units = s.units := rfl
@[simp] lemma setPhase_nodes (s : GameState) (p : GamePhase) :
    (setPhase s p).nodes = s.nodes := rfl
@[simp] lemma setPhase_edges (s : GameState) (p : GamePhase) :
    (setPhase s p).edges = s.edges := rfl
@[simp] lemma setPhase_factions (s : GameState) (p : GamePhase) :
    (setPhase s p).factions = s.factions := rfl
@[simp] lemma setPhase_events (s : GameState) (p : GamePhase) :
    (setPhase s p).events = s.events := rfl
@[simp] lemma setPhase_phase (s : GameState) (p : GamePhase) :
    (setPhase s p).phase = p := rfl

@[simp] lemma addTas_units (s : GameState) (n : Nat) :
    (addTas s n).units = s.units := rfl
@[simp] lemma addTas_nodes (s : GameState) (n : Nat) :
    (addTas s n).nodes = s.nodes := rfl
@[simp] lemma addTas_edges (s : GameState) (n : Nat) :
    (addTas s n).edges = s.edges := rfl
@[simp] lemma addTas_factions (s : GameState) (n : Nat) :
    (addTas s n).factions = s.factions := rfl
@[simp] lemma addTas_events (s : GameState) (n : Nat) :
    (addTas s n).events = s.events := rfl
@[simp] lemma addTas_phase (s : GameState) (n : Nat) :
    (addTas s n).phase = s.phase := rfl
@[simp] lemma addTas_tas (s : GameState) (n : Nat) :
    (addTas s n).counters.tas = s.counters.tas + n := rfl
@[simp] lemma addTas_regulatoryPanic (s : GameState) (n : Nat) :
    (addTas s n).counters.regulatoryPanic = s.counters.regulatoryPanic := rfl
@[simp] lemma addTas_protocolFailure (s : GameState) (n : Nat) :
    (addTas s n).counters.protocolFailure = s.counters.protocolFailure := rfl
@[simp] lemma addTas_orbitalCollapse (s : GameState) (n : Nat) :
    (addTas s n).counters.orbitalCollapse = s.counters.orbitalCollapse := rfl

@[simp] lemma addKessler_events (s : GameState) (n : Nat) :
    (addKessler s n).events = s.events := rfl
@[simp] lemma addKessler_regulatoryPanic (s : GameState) (n : Nat) :
    (addKessler s n).counters.regulatoryPanic =
      s.counters.regulatoryPanic := rfl
@[simp] lemma addKessler_protocolFailure (s : GameState) (n : Nat) :
    (addKessler s n).counters.protocolFailure =
      s.counters.protocolFailure := rfl
@[simp] lemma addKessler_orbitalCollapse (s : GameState) (n : Nat) :
    (addKessler s n).counters.orbitalCollapse =
      s.counters.orbitalCollapse := rfl

@[simp] lemma bumpTurn_events (s : GameState) :
    (bumpTurn s).events = s.events := rfl
@[simp] lemma bumpTurn_regulatoryPanic (s : GameState) :
    (bumpTurn s).counters.regulatoryPanic = s.counters.regulatoryPanic := rfl
@[simp] lemma bumpTurn_protocolFailure (s : GameState) :
    (bumpTurn s).counters.protocolFailure = s.counters.protocolFailure := rfl
@[simp] lemma bumpTurn_orbitalCollapse (s : GameState) :
    (bumpTurn s).counters.orbitalCollapse = s.counters.orbitalCollapse := rfl

@[simp] lemma addUnit_events (s : GameState) (u : Unit) :
    (addUnit s u).events = s.events := rfl
@[simp] lemma addUnit_counters (s : GameState) (u : Unit) :
    (addUnit s u).counters = s.counters := rfl
@[simp] lemma addUnit_nodes (s : GameState) (u : Unit) :
    (addUnit s u).nodes = s.nodes := rfl
@[simp] lemma addUnit_factions (s : GameState) (u : Unit) :
    (addUnit s u).factions = s.factions := rfl

@[simp] lemma pushHistory_events (s : GameState) (r : TurnRecord) :
    (pushHistory s r).events = s.events := rfl
@[simp] lemma pushHistory_counters (s : GameState) (r : TurnRecord) :
    (pushHistory s r).counters = s.counters := rfl
@[simp] lemma clearPendingResults_events (s : GameState) :
    (clearPendingResults s).events = s.events := rfl
@[simp] lemma clearPendingResults_counters (s : GameState) :
    (clearPendingResults s).counters = s.counters := rfl

@[simp] lemma setLatchPanic_events (s : GameState) :
    (setLatchPanic s).events = s.events := rfl
@[simp] lemma setLatchPanic_regulatoryPanic (s : GameState) :
    (setLatchPanic s).counters.regulatoryPanic = true := rfl
@[simp] lemma setLatchPanic_protocolFailure (s : GameState) :
    (setLatchPanic s).counters.protocolFailure =
      s.counters.protocolFailure := rfl
@[simp] lemma setLatchPanic_orbitalCollapse (s : GameState) :
    (setLatchPanic s).counters.orbitalCollapse =
      s.counters.orbitalCollapse := rfl
@[simp] lemma setLatchPanic_tas (s : GameState) :
    (setLatchPanic s).counters.tas = s.counters.tas := rfl
@[simp] lemma setLatchPanic_kessler (s : GameState) :
    (setLatchPanic s).counters.kessler = s.counters.kessler := rfl

@[simp] lemma setLatchFailure_events (s : GameState) :
    (setLatchFailure s).events = s.events := rfl
@[simp] lemma setLatchFailure_regulatoryPanic (s : GameState) :
    (setLatchFailure s).counters.regulatoryPanic =
      s.counters.regulatoryPanic := rfl
@[simp] lemma setLatchFailure_protocolFailure (s : GameState) :
    (setLatchFailure s).counters.protocolFailure = true := rfl
@[simp] lemma setLatchFailure_orbitalCollapse (s : GameState) :
    (setLatchFailure s).counters.orbitalCollapse =
      s.counters.orbitalCollapse := rfl
@[simp] lemma setLatchFailure_tas (s : GameState) :
    (setLatchFailure s).counters.tas = s.counters.tas := rfl
@[simp] lemma setLatchFailure_kessler (s : GameState) :
    (setLatchFailure s).counters.kessler = s.counters.kessler := rfl

@[simp] lemma setLatchCollapse_events (s : GameState) :
    (setLatchCollapse s).events = s.events := rfl
@[simp] lemma setLatchCollapse_regulatoryPanic (s : GameState) :
    (setLatchCollapse s).counters.regulatoryPanic =
      s.counters.regulatoryPanic := rfl
@[simp] lemma setLatchCollapse_protocolFailure (s : GameState) :
    (setLatchCollapse s).counters.protocolFailure =
      s.counters.protocolFailure := rfl
@[simp] lemma setLatchCollapse_orbitalCollapse (s : GameState) :
    (setLatchCollapse s).counters.orbitalCollapse = true := rfl
@[simp] lemma setLatchCollapse_tas (s : GameState) :
    (setLatchCollapse s).counters.tas = s.counters.tas := rfl
@[simp] lemma setLatchCollapse_kessler (s : GameState) :
    (setLatchCollapse s).counters.kessler = s.counters.kessler := rfl

-- ===========================================================================
-- Concrete fixtures (small states used by witnesses and counterexamples)
-- ===========================================================================

/-- Fresh counters as in `createInitialState`. -/
def baseCounters : GlobalCounters :=
  { tas := 0, kessler := 0, turn := 1, regulatoryPanic := false,
    protocolFailure := false, orbitalCollapse := false }

/-- A faction state with modest resources and level-1 tech. -/
def mkFaction (fid : FactionId) : FactionState :=
  { id := fid, flops := 10, influence := 10,
    techLevel := { KINETIC := 1, INFO := 1, LOGIC := 1, MEMETIC := 1 },
    unlockedTechs := [], submittedOrders := [], revealedEnemies := [],
    artifacts := [] }

/-- All four factions in engine order. -/
def allFactions : List FactionState :=
  [mkFaction .HEGEMON, mkFaction .INFILTRATOR, mkFaction .STATE,
   mkFaction .NEUTRAL]

/-- A HEGEMON-owned terrestrial hub. -/
def hub1 : GameNode :=
  { id := "HUB1", type := .HUB, layer := .TERRESTRIAL, owner := some .HEGEMON,
    flops := 10, influence := 5, isZombie := false, isCultNode := false,
    infrastructure := 100 }

/-- An INFILTRATOR cult unit that has sat on `HUB1` for five turns. -/
def cultUnit : Unit :=
  { id := "c1", type := .CULT, owner := .INFILTRATOR, location := "HUB1",
    stealthLevel := 1, isRevealed := false, hasActed := false,
    turnsOnNode := 5 }

/-- A HEGEMON drone on `HUB1`. -/
def droneU : Unit :=
  { id := "u1", type := .DRONE, owner := .HEGEMON, location := "HUB1",
    stealthLevel := 0, isRevealed := false, hasActed := false,
    turnsOnNode := 0 }

/-- An INFILTRATOR drone on `HUB1` (combat fixture). -/
def defU : Unit :=
  { id := "d1", type := .DRONE, owner := .INFILTRATOR, location := "HUB1",
    stealthLevel := 0, isRevealed := false, hasActed := false,
    turnsOnNode := 0 }

/-- Base fixture state in the order-submission phase. -/
def st0 : GameState :=
  { phase := .ACTION_DECLARATION, counters := baseCounters, nodes := [hub1],
    edges := [], units := [droneU, cultUnit], factions := allFactions,
    turnHistory := [], logs := [], pendingResults := [], events := [],
    rolls := [], nextId := 0 }

/-- The fixture about to run its TURN_END checks. -/
def st5 : GameState := { st0 with phase := .RESOLUTION }

/-- The fixture at exactly the panic threshold, about to run TURN_END. -/
def st3 : GameState :=
  { st0 with phase := .RESOLUTION,
             counters := { baseCounters with tas := 50 } }

/-- A HOLD order of HEGEMON's drone. -/
def holdO (oid : String) : Order :=
  { id := oid, faction := .HEGEMON, unitId := "u1", type := .HOLD }

/-- A MOVE order for a unit id that does not exist. -/
def badO : Order :=
  { id := "ob", faction := .HEGEMON, unitId := "nope", type := .MOVE,
    targetNodeId := some "HUB1" }

/-- HEGEMON with only 1 FLOP (cannot afford a 2-FLOP DRONE). -/
def poorHeg : FactionState := { mkFaction .HEGEMON with flops := 1 }

/-- Fixture state whose HEGEMON cannot afford a DRONE. -/
def st7 : GameState :=
  { st0 with factions :=
      [poorHeg, mkFaction .INFILTRATOR, mkFaction .STATE, mkFaction .NEUTRAL] }

/-- A BUILD order for a DRONE at `HUB1`. -/
def buildO : Order :=
  { id := "b1", faction := .HEGEMON, unitId := "", type := .BUILD,
    targetNodeId := some "HUB1", unitTypeToBuild := some UnitType.DRONE }

-- ===========================================================================
-- C9: combat scoring closed form
-- ===========================================================================

lemma vectorCount_nil (v : Vector) : vectorCount [] v = 0 := rfl

lemma vectorCount_cons (u : Unit) (l : List Unit) (v : Vector) :
    vectorCount (u :: l) v =
      (if (UNIT_STATS u.type).vector = v then 1 else 0) + vectorCount l v := by
  simp only [vectorCount, List.filter_cons]
  by_cases h : (UNIT_STATS u.type).vector = v <;> simp [h] <;> omega

lemma foldl_add_shape (g : Vector → Nat) (l : List Vector) (a : Nat) :
    l.foldl (fun acc v => acc + g v) a = a + (l.map g).sum := by
  induction l generalizing a with
  | nil => simp
  | cons v t ih => simp [ih, Nat.add_assoc]

lemma sidePower_eq_sum (mine opp : List Unit) :
    sidePower mine opp = mine.length +
      (allVectors.map (fun v =>
        if hasVector opp (VECTOR_SUPERIORITY v) then vectorCount mine v
        else 0)).sum := by
  unfold sidePower
  congr 1
  have hfun :
      (fun (acc : Nat) v =>
        if 0 < vectorCount mine v ∧ hasVector opp (VECTOR_SUPERIORITY v) then
          acc + vectorCount mine v
        else acc) =
      fun (acc : Nat) v =>
        acc + (if hasVector opp (VECTOR_SUPERIORITY v) then vectorCount mine v
               else 0) := by
    funext acc v
    by_cases hb : hasVector opp (VECTOR_SUPERIORITY v) = true
    · rcases Nat.eq_zero_or_pos (vectorCount mine v) with h0 | h0 <;>
        simp [hb, h0]
    · simp [hb]
  rw [hfun, foldl_add_shape]
  simp

lemma bonus_filter (opp mine : List Unit) :
    (allVectors.map (fun v =>
      if hasVector opp (VECTOR_SUPERIORITY v) then vectorCount mine v
      else 0)).sum =
    (mine.filter (fun u =>
      hasVector opp (VECTOR_SUPERIORITY (UNIT_STATS u.type).vector))).length := by
  induction mine with
  | nil => simp [allVectors, vectorCount]
  | cons u rest ih =>
      rw [List.filter_cons]
      simp only [allVectors, List.map_cons, List.map_nil, List.sum_cons,
        List.sum_nil, vectorCount_cons] at *
      rcases hv : (UNIT_STATS u.type).vector <;>
        simp only [hv, VECTOR_SUPERIORITY] at * <;>
        by_cases hK : hasVector opp Vector.KINETIC = true <;>
        by_cases hI : hasVector opp Vector.INFO = true <;>
        by_cases hM : hasVector opp Vector.MEMETIC = true <;>
        by_cases hL : hasVector opp Vector.LOGIC = true <;>
        simp [hK, hI, hM, hL] at * <;> omega

/-- C9: each side's combat score is its unit count plus one bonus point per
unit of that side whose combat vector beats (per the fixed cycle
`VECTOR_SUPERIORITY`: KINETIC→MEMETIC→LOGIC→INFO→KINETIC) some vector
present on the opposing side — counted once per such unit, independent of
how many opposing counterpart units exist — and both sides' scores are
functions of the two pre-bonus unit lists alone, so no evaluation order
can affect them. -/
theorem C9_additive_vector_bonus (attackers defenders : List Unit) :
    sidePower attackers defenders = attackers.length +
      (attackers.filter (fun u =>
        hasVector defenders
          (VECTOR_SUPERIORITY (UNIT_STATS u.type).vector))).length ∧
    sidePower defenders attackers = defenders.length +
      (defenders.filter (fun u =>
        hasVector attackers
          (VECTOR_SUPERIORITY (UNIT_STATS u.type).vector))).length := by
  constructor <;> rw [sidePower_eq_sum, bonus_filter]

-- ===========================================================================
-- C1: standoff invariant
-- ===========================================================================

/-- C1: whenever the attacker total equals the defender total,
`resolveCombat` is a standoff — the unit map is untouched (no unit on
either side is destroyed and no attacker's location, i.e. no relocation,
changes) and the node map is untouched (no ownership change). -/
theorem C1_standoff_invariant (s : GameState) (attackers defenders : List Unit)
    (nodeId : String)
    (h : sidePower attackers defenders = sidePower defenders attackers) :
    (resolveCombat s attackers defenders nodeId).units = s.units ∧
    (resolveCombat s attackers defenders nodeId).nodes = s.nodes := by
  unfold resolveCombat
  simp only [h, gt_iff_lt, lt_irrefl, if_false]
  constructor <;> (split <;> simp)

/-- Witness for C1: one KINETIC drone against one KINETIC drone is a 1–1
standoff, and the fixture state's units and nodes are unchanged. -/
theorem C1_standoff_invariant_witness :
    sidePower [droneU] [defU] = sidePower [defU] [droneU] ∧
    (resolveCombat st0 [droneU] [defU] "HUB1").units = st0.units ∧
    (resolveCombat st0 [droneU] [defU] "HUB1").nodes = st0.nodes :=
  ⟨by decide, C1_standoff_invariant st0 [droneU] [defU] "HUB1" (by decide)⟩

-- ===========================================================================
-- C7: failed BUILD deducts nothing and creates nothing
-- ===========================================================================

/-- The faction cannot pay the unit kind's cost in its required currency
(the affordability test of `resolveBuild`). -/
def cannotAfford (f : FactionState) (ut : UnitType) : Prop :=
  ((UNIT_STATS ut).currency = .F ∧ f.flops < (UNIT_STATS ut).cost) ∨
  ((UNIT_STATS ut).currency = .I ∧ f.influence < (UNIT_STATS ut).cost)

/-- The target node is missing or not owned by the building faction. -/
def nodeNotOwned (s : GameState) (nid : String) (fid : FactionId) : Prop :=
  ∀ n, findNode s nid = some n → n.owner ≠ some fid

/-- The target node is orbital while the kind cannot orbit. -/
def orbitalRestricted (s : GameState) (nid : String) (ut : UnitType) : Prop :=
  ∃ n, findNode s nid = some n ∧ n.layer = .ORBITAL ∧
    (UNIT_STATS ut).canOrbit = false

/-- C7: a BUILD order that fails any of the three checks of `resolveBuild`
(affordability in the kind's currency, node ownership, orbital capability)
leaves every faction's `flops` and `influence` exactly as before (no
partial deduction) and creates no unit. -/
theorem C7_build_rejects_without_state_change (s : GameState) (o : Order)
    (fid : FactionId) (f : FactionState) (ut : UnitType) (nid : String)
    (hut : o.unitTypeToBuild = some ut) (hnid : o.targetNodeId = some nid)
    (hf : findFaction s fid = some f)
    (hfail : cannotAfford f ut ∨ nodeNotOwned s nid fid ∨
      orbitalRestricted s nid ut) :
    (resolveBuild s o fid).factions = s.factions ∧
    (resolveBuild s o fid).units = s.units := by
  unfold resolveBuild
  rw [hut, hnid, hf]
  by_cases h1 : (UNIT_STATS ut).currency = .F ∧ f.flops < (UNIT_STATS ut).cost
  · simp [h1]
  · by_cases h2 : (UNIT_STATS ut).currency = .I ∧
        f.influence < (UNIT_STATS ut).cost
    · simp [h1, h2]
    · cases hn : findNode s nid with
      | none => simp [h1, h2, hn]
      | some n =>
          by_cases h3 : n.owner ≠ some fid
          · simp [h1, h2, hn, h3]
          · by_cases h4 : n.layer = .ORBITAL ∧ ¬ (UNIT_STATS ut).canOrbit
            · simp [h1, h2, hn, h3, h4]
            · exfalso
              rcases hfail with hc | hno | ho
              · rcases hc with ⟨hcur, hlt⟩ | ⟨hcur, hlt⟩
                · exact h1 ⟨hcur, hlt⟩
                · exact h2 ⟨hcur, hlt⟩
              · exact h3 (hno n hn)
              · rcases ho with ⟨n2, hn2, hlay, horb⟩
                rw [hn] at hn2
                cases hn2
                exact h4 ⟨hlay, by simp [horb]⟩

/-- Witness for C7: HEGEMON with 1 FLOP cannot afford a 2-FLOP DRONE, and
`resolveBuild` leaves all faction currencies and the unit list unchanged. -/
theorem C7_build_rejects_without_state_change_witness :
    cannotAfford poorHeg UnitType.DRONE ∧
    (resolveBuild st7 buildO .HEGEMON).factions = st7.factions ∧
    (resolveBuild st7 buildO .HEGEMON).units = st7.units :=
  ⟨Or.inl ⟨by decide, by decide⟩,
   C7_build_rejects_without_state_change st7 buildO .HEGEMON poorHeg
     UnitType.DRONE "HUB1" rfl rfl (by decide)
     (Or.inl (Or.inl ⟨by decide, by decide⟩))⟩

-- ===========================================================================
-- C10: HOLD and SUPPORT orders are ignored by the resolution pipeline
-- ===========================================================================

lemma movementStep_skip (s : GameState) (acc : List (String × Mover))
    (o : Order) (h : o.type ≠ .MOVE ∧ o.type ≠ .ATTACK) :
    movementStep s acc o = acc := by
  simp [movementStep, h]

lemma foldl_movementStep_filter (s : GameState) (orders : List Order) :
    ∀ acc, orders.foldl (movementStep s) acc =
      (orders.filter (fun o => o.type = .MOVE || o.type = .ATTACK)).foldl
        (movementStep s) acc := by
  induction orders with
  | nil => intro acc; rfl
  | cons o t ih =>
      intro acc
      by_cases h : o.type = OrderType.MOVE ∨ o.type = OrderType.ATTACK
      · have hd : (o.type = OrderType.MOVE || o.type = OrderType.ATTACK) =
            true := by
          rcases h with h | h <;> simp [h]
        simp only [List.filter_cons, hd, if_pos, List.foldl_cons]
        exact ih _
      · push_neg at h
        have hd : (o.type = OrderType.MOVE || o.type = OrderType.ATTACK) =
            false := by
          simp [h.1, h.2]
        simp only [List.filter_cons, hd, List.foldl_cons, Bool.false_eq_true,
          if_false]
        rw [movementStep_skip s acc o h]
        exact ih _

/-- C10: submitted HOLD and SUPPORT orders are silently dropped by the
movement/combat resolver — resolving any order list equals resolving just
its MOVE/ATTACK orders (they are filtered out before destination
grouping), and a list of only HOLD/SUPPORT orders leaves the state
entirely unchanged (in particular no unit's `hasActed` flag is set; the
unit defends its node only through presence, like an unordered unit). -/
theorem C10_hold_support_ignored (s : GameState) (orders : List Order) :
    resolveMovementPhase s orders =
      resolveMovementPhase s
        (orders.filter (fun o => o.type = .MOVE || o.type = .ATTACK)) ∧
    resolveMovementPhase s
      (orders.filter (fun o => o.type = .HOLD || o.type = .SUPPORT)) = s := by
  constructor
  · unfold resolveMovementPhase movementPairs
    rw [foldl_movementStep_filter]
  · unfold resolveMovementPhase movementPairs
    have hnil : (orders.filter
        (fun o => o.type = .HOLD || o.type = .SUPPORT)).foldl
          (movementStep s) [] = ([] : List (String × Mover)) := by
      rw [foldl_movementStep_filter]
      have hff : (orders.filter
          (fun o => o.type = .HOLD || o.type = .SUPPORT)).filter
            (fun o => o.type = .MOVE || o.type = .ATTACK) = [] := by
        rw [List.filter_filter]
        have hpred : ∀ o : Order,
            ((o.type = OrderType.MOVE || o.type = OrderType.ATTACK) &&
             (o.type = OrderType.HOLD || o.type = OrderType.SUPPORT)) =
              false := by
          intro o; cases h : o.type <;> simp [h]
        calc orders.filter _ = orders.filter (fun _ => false) := by
              apply List.filter_congr; intro o _; exact hpred o
          _ = [] := List.filter_false _
      rw [hff]
      rfl
    rw [hnil]
    rfl

-- ===========================================================================
-- Keyed-lookup lemmas
-- ===========================================================================

lemma find?_map_of_pred_preserved {α : Type} (l : List α) (p : α → Bool)
    (g : α → α) (hp : ∀ a, p (g a) = p a) :
    (l.map g).find? p = (l.find? p).map g := by
  induction l with
  | nil => rfl
  | cons a t ih =>
      by_cases h : p a = true
      · rw [List.map_cons, List.find?_cons_of_pos _ (by rw [hp]; exact h),
          List.find?_cons_of_pos _ h]
        rfl
      · rw [List.map_cons,
          List.find?_cons_of_neg _ (by rw [hp]; simpa using h),
          List.find?_cons_of_neg _ (by simpa using h), ih]

lemma find?_pred_true {α : Type} {l : List α} {p : α → Bool} {a : α}
    (h : l.find? p = some a) : p a = true :=
  List.find?_some h

lemma findNode_updateNode (s : GameState) (loc : String)
    (f : GameNode → GameNode) (hf : ∀ n, (f n).id = n.id) (nid : String) :
    findNode (updateNode s loc f) nid =
      (findNode s nid).map (fun n => if n.id = loc then f n else n) := by
  unfold findNode updateNode
  exact find?_map_of_pred_preserved s.nodes _ _
    (fun n => by by_cases h : n.id = loc <;> simp [h, hf])

lemma findFaction_updateFaction_self (s : GameState) (fid : FactionId)
    (g : FactionState → FactionState) (hg : ∀ f, (g f).id = f.id)
    (f : FactionState) (hf : findFaction s fid = some f) :
    findFaction (updateFaction s fid g) fid = some (g f) := by
  unfold findFaction updateFaction mapFactions
  rw [find?_map_of_pred_preserved s.factions _ _
    (fun a => by by_cases h : a.id = fid <;> simp [h, hg])]
  unfold findFaction at hf
  rw [hf]
  have hid : f.id = fid := by simpa using find?_pred_true hf
  simp [hid]

@[simp] lemma findFaction_pushLog (s : GameState) (t : LogType) (m : String)
    (fid : FactionId) : findFaction (pushLog s t m) fid = findFaction s fid :=
  rfl

@[simp] lemma findFaction_pushEvent (s : GameState) (t : GameEventType)
    (p : EventPayload) (fid : FactionId) :
    findFaction (pushEvent s t p) fid = findFaction s fid := rfl

-- ===========================================================================
-- C4: the validator's hasActed check, and what it does not prevent
-- ===========================================================================

/-- C4 (amended): the validator rejects a unit-based order whenever the
unit's `hasActed` flag is already true.  (`hasActed` is only ever set
during resolution and is cleared at turn end, so — as the counterexample
shows — this check does not limit a faction to one accepted order per unit
per turn: orders merely pending in the same turn leave `hasActed` false.) -/
theorem C4_hasActed_rejects (s : GameState) (o : Order) (fid : FactionId)
    (u : Unit) (hne : o.unitId ≠ "") (hb : o.type ≠ .BUILD)
    (hr : o.type ≠ .RESEARCH) (hfind : findUnit s o.unitId = some u)
    (hacted : u.hasActed = true) :
    (validateOrder s o fid).valid = false := by
  unfold validateOrder
  have hcond : o.unitId ≠ "" ∧ o.type ≠ OrderType.BUILD ∧
      o.type ≠ OrderType.RESEARCH := ⟨hne, hb, hr⟩
  rw [if_pos hcond, hfind]
  by_cases how : u.owner ≠ fid
  · simp [how]
  · simp [how, hacted]

/-- An already-acted copy of the fixture drone. -/
def actedU : Unit := { droneU with hasActed := true }

/-- Fixture state whose only unit has already acted. -/
def stA : GameState := { st0 with units := [actedU] }

/-- Witness for C4 (amended): an order for the acted unit is rejected. -/
theorem C4_hasActed_rejects_witness :
    (validateOrder stA (holdO "o1") .HEGEMON).valid = false :=
  C4_hasActed_rejects stA (holdO "o1") .HEGEMON actedU (by decide)
    (by decide) (by decide) (by decide) rfl

/-- Counterexample to C4 as stated: two orders for the same unit `u1`,
submitted in one batch in the same turn, are BOTH accepted — the
`hasActed` check does not reject the second one, because submission never
sets `hasActed`. -/
theorem C4_counterexample :
    (submitOrders st0 .HEGEMON [holdO "o1", holdO "o2"]).2.success = true ∧
    findFaction (submitOrders st0 .HEGEMON [holdO "o1", holdO "o2"]).1
        .HEGEMON =
      some { mkFaction .HEGEMON with
               submittedOrders := [holdO "o1", holdO "o2"] } := by
  decide

-- ===========================================================================
-- C8: batch submission is all-or-nothing, not per-order
-- ===========================================================================

/-- C8 (amended): `submitOrders` validates each order of the batch against
the current state individually, but acceptance is all-or-nothing: when
every order validates the whole batch is appended to the faction's
pending-order list, and when any order fails validation the entire batch
is rejected and the state is completely unchanged — a valid order in a
batch with an invalid one is NOT accepted. -/
theorem C8_batch_all_or_nothing (s : GameState) (fid : FactionId)
    (orders : List Order) (f : FactionState)
    (hphase : s.phase = .ALLOCATION ∨ s.phase = .ACTION_DECLARATION)
    (hf : findFaction s fid = some f) :
    ((∀ o ∈ orders, (validateOrder s o fid).valid = true) →
      (submitOrders s fid orders).2.success = true ∧
      findFaction (submitOrders s fid orders).1 fid =
        some { f with submittedOrders := f.submittedOrders ++ orders }) ∧
    ((∃ o ∈ orders, (validateOrder s o fid).valid = false) →
      (submitOrders s fid orders).2.success = false ∧
      (submitOrders s fid orders).1 = s) := by
  unfold submitOrders
  have hc : ¬ (s.phase ≠ GamePhase.ALLOCATION ∧
      s.phase ≠ GamePhase.ACTION_DECLARATION) := by
    rcases hphase with h | h <;> simp [h]
  rw [if_neg hc, hf]
  constructor
  · intro hall
    have hfind : orders.find? (fun o => !(validateOrder s o fid).valid) =
        none := by
      rw [List.find?_eq_none]
      intro o ho
      simp [hall o ho]
    rw [hfind]
    refine ⟨rfl, ?_⟩
    simp only [findFaction_pushEvent, findFaction_pushLog]
    exact findFaction_updateFaction_self s fid
      (fun fc => { fc with submittedOrders := fc.submittedOrders ++ orders })
      (fun _ => rfl) f hf
  · rintro ⟨o, ho, hbad⟩
    cases hfind : orders.find? (fun o => !(validateOrder s o fid).valid) with
    | none =>
        rw [List.find?_eq_none] at hfind
        exact absurd (by simp [hbad] : (!(validateOrder s o fid).valid) = true)
          (hfind o ho)
    | some bad => exact ⟨rfl, rfl⟩

/-- Witness for C8 (amended): a fully valid batch is appended. -/
theorem C8_batch_all_or_nothing_witness :
    (submitOrders st0 .HEGEMON [holdO "o1"]).2.success = true ∧
    findFaction (submitOrders st0 .HEGEMON [holdO "o1"]).1 .HEGEMON =
      some { mkFaction .HEGEMON with
               submittedOrders := (mkFaction .HEGEMON).submittedOrders ++
                 [holdO "o1"] } :=
  (C8_batch_all_or_nothing st0 .HEGEMON [holdO "o1"] (mkFaction .HEGEMON)
      (Or.inr rfl) (by decide)).1 (by decide)

/-- Counterexample to C8 as stated: a batch holding one individually valid
order and one invalid order is rejected wholesale — the valid order is not
appended, the state is unchanged. -/
theorem C8_counterexample :
    (validateOrder st0 (holdO "o1") .HEGEMON).valid = true ∧
    (validateOrder st0 badO .HEGEMON).valid = false ∧
    (submitOrders st0 .HEGEMON [holdO "o1", badO]).2.success = false ∧
    (submitOrders st0 .HEGEMON [holdO "o1", badO]).1 = st0 := by
  decide

-- ===========================================================================
-- C5: TURN_END foothold auto-conversion
-- ===========================================================================

@[simp] lemma findNode_pushLog (s : GameState) (t : LogType) (m : String)
    (nid : String) : findNode (pushLog s t m) nid = findNode s nid := rfl

@[simp] lemma findNode_pushEvent (s : GameState) (t : GameEventType)
    (p : EventPayload) (nid : String) :
    findNode (pushEvent s t p) nid = findNode s nid := rfl

/-- One foothold step either leaves a given node untouched, or — only when
the unit stands on it and it was not yet a zombie — marks it zombie and
hands it to the unit's owner, changing nothing else. -/
lemma footholdStep_findNode (s : GameState) (u : Unit) (nid : String)
    (n : GameNode) (h : findNode s nid = some n) :
    findNode (footholdStep s u) nid = some n ∨
      (u.type = .SWARM ∧ u.turnsOnNode ≥ ZOMBIE_TURNS ∧ u.location = nid ∧
        n.isZombie = false ∧
        findNode (footholdStep s u) nid =
          some { n with isZombie := true, owner := some u.owner }) := by
  unfold footholdStep
  by_cases hc : u.type = UnitType.SWARM ∧ u.turnsOnNode ≥ ZOMBIE_TURNS
  · rw [if_pos hc]
    cases hloc : findNode s u.location with
    | none => exact Or.inl h
    | some node =>
        dsimp only
        by_cases hg : node.isZombie = false ∧
            (node.type = NodeType.DC ∨ node.type = NodeType.HUB)
        · rw [if_pos hg]
          simp only [findNode_pushEvent, findNode_pushLog]
          rw [findNode_updateNode s u.location
            (fun n => { n with isZombie := true, owner := some u.owner })
            (fun _ => rfl) nid, h]
          by_cases hnid : n.id = u.location
          · have hid : n.id = nid := by simpa using find?_pred_true h
            have hun : u.location = nid := by rw [← hnid, hid]
            have hnode : node = n := by
              rw [hun] at hloc; rw [hloc] at h; exact (Option.some_inj.mp h)
            refine Or.inr ⟨hc.1, hc.2, hun, by rw [← hnode]; exact hg.1, ?_⟩
            simp [hnid]
          · exact Or.inl (by simp [hnid])
        · rw [if_neg hg]; exact Or.inl h
  · rw [if_neg hc]; exact Or.inl h

/-- A qualifying SWARM's own step zombifies its non-zombie node and hands
it to the unit's owner, changing no other field. -/
lemma footholdStep_converts (s : GameState) (u : Unit) (n : GameNode)
    (hu : u.type = .SWARM) (ht : u.turnsOnNode ≥ ZOMBIE_TURNS)
    (h : findNode s u.location = some n) (hz : n.isZombie = false)
    (htype : n.type = .DC ∨ n.type = .HUB) :
    findNode (footholdStep s u) u.location =
      some { n with isZombie := true, owner := some u.owner } := by
  unfold footholdStep
  rw [if_pos ⟨hu, ht⟩, h]
  dsimp only
  rw [if_pos ⟨hz, htype⟩]
  simp only [findNode_pushEvent, findNode_pushLog]
  rw [findNode_updateNode s u.location
    (fun n => { n with isZombie := true, owner := some u.owner })
    (fun _ => rfl) u.location, h]
  have hid : n.id = u.location := by simpa using find?_pred_true h
  simp [hid]

/-- A node that is already a zombie is never re-processed: the whole
foothold sweep leaves it exactly as it is. -/
lemma foldl_foothold_frame (l : List Unit) :
    ∀ (s : GameState) (nid : String) (n : GameNode),
      findNode s nid = some n → n.isZombie = true →
      findNode (l.foldl footholdStep s) nid = some n := by
  induction l with
  | nil => exact fun s nid n h _ => h
  | cons v t ih =>
      intro s nid n h hz
      simp only [List.foldl_cons]
      rcases footholdStep_findNode s v nid n h with h1 | ⟨_, _, _, hzf, _⟩
      · exact ih _ _ _ h1 hz
      · rw [hz] at hzf; cases hzf

/-- The foothold sweep preserves every node's existence, `type` and
`isCultNode` flag. -/
lemma foldl_foothold_track (l : List Unit) :
    ∀ (s : GameState) (nid : String) (n : GameNode),
      findNode s nid = some n →
      ∃ n2, findNode (l.foldl footholdStep s) nid = some n2 ∧
        n2.isCultNode = n.isCultNode ∧ n2.type = n.type := by
  induction l with
  | nil => exact fun s nid n h => ⟨n, h, rfl, rfl⟩
  | cons v t ih =>
      intro s nid n h
      simp only [List.foldl_cons]
      rcases footholdStep_findNode s v nid n h with h1 | ⟨_, _, _, _, h2⟩
      · exact ih _ _ _ h1
      · rcases ih _ _ _ h2 with ⟨n2, hf, hc, htp⟩
        exact ⟨n2, hf, hc, htp⟩

/-- Any qualifying SWARM in the sweep list ends with its non-zombie node
zombified and handed to the faction of the converting qualifying SWARM on
it (itself, unless an earlier one in iteration order converted first),
every other field unchanged. -/
lemma foldl_foothold_converts (l : List Unit) :
    ∀ (s : GameState) (u : Unit), u ∈ l → u.type = .SWARM →
      u.turnsOnNode ≥ ZOMBIE_TURNS →
      ∀ n, findNode s u.location = some n → n.isZombie = false →
        (n.type = .DC ∨ n.type = .HUB) →
        ∃ v ∈ l, v.type = .SWARM ∧ v.turnsOnNode ≥ ZOMBIE_TURNS ∧
          v.location = u.location ∧
          findNode (l.foldl footholdStep s) u.location =
            some { n with isZombie := true, owner := some v.owner } := by
  induction l with
  | nil => intro s u hu; cases hu
  | cons w t ih =>
      intro s u hu hsw ht n h hz htype
      simp only [List.foldl_cons]
      rcases List.mem_cons.mp hu with rfl | hmem
      · have hc := footholdStep_converts s u n hsw ht h hz htype
        exact ⟨u, List.mem_cons_self u t, hsw, ht, rfl,
          foldl_foothold_frame t _ _ _ hc rfl⟩
      · rcases footholdStep_findNode s w u.location n h with
          h1 | ⟨hwsw, hwt, hwl, _, h2⟩
        · rcases ih _ u hmem hsw ht n h1 hz htype with ⟨v, hv, a, b, c, d⟩
          exact ⟨v, List.mem_cons_of_mem w hv, a, b, c, d⟩
        · exact ⟨w, List.mem_cons_self w t, hwsw, hwt, hwl,
            foldl_foothold_frame t _ _ _ h2 rfl⟩

/-- C5 (amended): at the TURN_END foothold check, (a) no node's
`isCultNode` flag is ever touched — CULT units do NOT auto-convert, auto-
conversion exists only for SWARM units — (b) a node that is already a
zombie is not re-processed (the check is idempotent: the node is left
exactly as it was), and (c) every SWARM unit meeting the zombie turn
threshold on a non-zombie DC or HUB node ends the check with that node
zombified and its ownership flipped to the faction of the qualifying
co-located SWARM that converted it (itself, unless another qualifying
SWARM earlier in iteration order converted first), no other field
changed, without needing a CONVERT order. -/
theorem C5_turn_end_conversion_amended (s : GameState) :
    (∀ nid n, findNode s nid = some n →
      ∃ n2, findNode (checkFootholdConversions s) nid = some n2 ∧
        n2.isCultNode = n.isCultNode) ∧
    (∀ nid n, findNode s nid = some n → n.isZombie = true →
      findNode (checkFootholdConversions s) nid = some n) ∧
    (∀ u ∈ s.units, u.type = .SWARM → u.turnsOnNode ≥ ZOMBIE_TURNS →
      ∀ n, findNode s u.location = some n → n.isZombie = false →
        (n.type = .DC ∨ n.type = .HUB) →
        ∃ v ∈ s.units, v.type = .SWARM ∧ v.turnsOnNode ≥ ZOMBIE_TURNS ∧
          v.location = u.location ∧
          findNode (checkFootholdConversions s) u.location =
            some { n with isZombie := true, owner := some v.owner }) := by
  unfold checkFootholdConversions
  refine ⟨?_, ?_, ?_⟩
  · intro nid n h
    rcases foldl_foothold_track s.units s nid n h with ⟨n2, hf, hc, _⟩
    exact ⟨n2, hf, hc⟩
  · intro nid n h hz
    exact foldl_foothold_frame s.units s nid n h hz
  · intro u hu hsw ht n h hz htype
    exact foldl_foothold_converts s.units s u hu hsw ht n h hz htype

/-- A HEGEMON data-center node (SWARM conversion fixture). -/
def dcNode : GameNode :=
  { id := "DC1", type := .DC, layer := .TERRESTRIAL, owner := some .HEGEMON,
    flops := 15, influence := 2, isZombie := false, isCultNode := false,
    infrastructure := 100 }

/-- An INFILTRATOR swarm that has sat on `DC1` for two turns. -/
def swarmU : Unit :=
  { id := "s1", type := .SWARM, owner := .INFILTRATOR, location := "DC1",
    stealthLevel := 2, isRevealed := false, hasActed := false,
    turnsOnNode := 2 }

/-- Fixture with a qualifying SWARM on a DC. -/
def stZ : GameState := { st0 with nodes := [dcNode], units := [swarmU] }

/-- Witness for C5 (amended): the qualifying SWARM zombifies `DC1` and
takes its ownership. -/
theorem C5_turn_end_conversion_amended_witness :
    ∃ v ∈ stZ.units, v.type = .SWARM ∧ v.turnsOnNode ≥ ZOMBIE_TURNS ∧
      v.location = swarmU.location ∧
      findNode (checkFootholdConversions stZ) swarmU.location =
        some { dcNode with isZombie := true, owner := some v.owner } :=
  (C5_turn_end_conversion_amended stZ).2.2 swarmU (by decide) (by decide)
    (by decide) dcNode (by decide) (by decide) (Or.inl (by decide))

/-- Counterexample to C5 as stated: a CULT unit that has sat on an
enemy-owned HUB far beyond `CULT_TURNS` does NOT auto-convert it at
TURN_END — after the full TURN_END transition the hub is unchanged
(`owner` still HEGEMON, `isCultNode` still false), while the claim
requires ownership to flip to INFILTRATOR with the cult flag set. -/
theorem C5_counterexample :
    cultUnit.type = .CULT ∧ cultUnit.location = "HUB1" ∧
    cultUnit.turnsOnNode + 1 ≥ CULT_TURNS ∧
    st5.phase = .RESOLUTION ∧ hub1.type = .HUB ∧
    hub1.owner = some .HEGEMON ∧ cultUnit.owner = .INFILTRATOR ∧
    findNode (advancePhase st5) "HUB1" = some hub1 := by
  decide

-- ===========================================================================
-- Event classification and the Quiet predicate
-- ===========================================================================

/-- Whether an emission with this type and payload is the regulatory-panic
alert (`TAS_THRESHOLD` with `threshold: "PANIC"`). -/
def panicSig (t : GameEventType) (p : EventPayload) : Bool :=
  t = .TAS_THRESHOLD &&
    (match p with
     | .tasThreshold _ th => th = "PANIC"
     | _ => false)

/-- The regulatory-panic alert event. -/
def isPanicAlert (e : GameEvent) : Bool := panicSig e.type e.payload

/-- `Quiet s s2`: going from `s` to `s2` left the three latch booleans
exactly as they were and appended only non-panic-alert events.  Every
engine operation except `checkGlobalThresholds` is quiet. -/
def Quiet (s s2 : GameState) : Prop :=
  s2.counters.regulatoryPanic = s.counters.regulatoryPanic ∧
  s2.counters.protocolFailure = s.counters.protocolFailure ∧
  s2.counters.orbitalCollapse = s.counters.orbitalCollapse ∧
  ∃ l, s2.events = s.events ++ l ∧ ∀ e ∈ l, isPanicAlert e = false

lemma quiet_refl (s : GameState) : Quiet s s :=
  ⟨rfl, rfl, rfl, [], by simp, by simp⟩

lemma quiet_trans {a b c : GameState} (h1 : Quiet a b) (h2 : Quiet b c) :
    Quiet a c := by
  obtain ⟨p1, q1, r1, l1, e1, f1⟩ := h1
  obtain ⟨p2, q2, r2, l2, e2, f2⟩ := h2
  refine ⟨p2.trans p1, q2.trans q1, r2.trans r1, l1 ++ l2, ?_, ?_⟩
  · rw [e2, e1, List.append_assoc]
  · intro e he
    rcases List.mem_append.mp he with h | h
    · exact f1 e h
    · exact f2 e h

/-- Any step out of `X` that keeps the latch fields and the event list is
quiet relative to any quiet predecessor. -/
lemma quiet_step {s X : GameState} (h : Quiet s X) (Y : GameState)
    (h1 : Y.counters.regulatoryPanic = X.counters.regulatoryPanic)
    (h2 : Y.counters.protocolFailure = X.counters.protocolFailure)
    (h3 : Y.counters.orbitalCollapse = X.counters.orbitalCollapse)
    (he : Y.events = X.events) : Quiet s Y := by
  obtain ⟨p, q, r, l, e, f⟩ := h
  exact ⟨h1.trans p, h2.trans q, h3.trans r, l, by rw [he, e], f⟩

/-- Appending one non-panic event is quiet. -/
lemma quiet_push {s X : GameState} (h : Quiet s X) (t : GameEventType)
    (p : EventPayload) (hsig : panicSig t p = false) :
    Quiet s (pushEvent X t p) := by
  obtain ⟨p1, q1, r1, l, e, f⟩ := h
  refine ⟨p1, q1, r1, l ++ [⟨t, p, X.counters.turn, X.phase⟩], ?_, ?_⟩
  · rw [pushEvent_events, e, List.append_assoc]
  · intro ev hev
    rcases List.mem_append.mp hev with hh | hh
    · exact f ev hh
    · simp only [List.mem_singleton] at hh
      subst hh
      exact hsig

lemma quiet_to_pushLog {s X : GameState} (t : LogType) (m : String)
    (h : Quiet s X) : Quiet s (pushLog X t m) :=
  quiet_step h _ rfl rfl rfl rfl

lemma quiet_to_pushEvent {s X : GameState} (t : GameEventType)
    (p : EventPayload) (hsig : panicSig t p = false) (h : Quiet s X) :
    Quiet s (pushEvent X t p) :=
  quiet_push h t p hsig

lemma quiet_to_updateFaction {s X : GameState} (fid : FactionId)
    (g : FactionState → FactionState) (h : Quiet s X) :
    Quiet s (updateFaction X fid g) :=
  quiet_step h _ rfl rfl rfl rfl

lemma quiet_to_updateUnit {s X : GameState} (uid : String) (g : Unit → Unit)
    (h : Quiet s X) : Quiet s (updateUnit X uid g) :=
  quiet_step h _ rfl rfl rfl rfl

lemma quiet_to_updateNode {s X : GameState} (nid : String)
    (g : GameNode → GameNode) (h : Quiet s X) : Quiet s (updateNode X nid g) :=
  quiet_step h _ rfl rfl rfl rfl

lemma quiet_to_updateEdge {s X : GameState} (eid : String)
    (g : GameEdge → GameEdge) (h : Quiet s X) : Quiet s (updateEdge X eid g) :=
  quiet_step h _ rfl rfl rfl rfl

lemma quiet_to_mapUnits {s X : GameState} (g : Unit → Unit) (h : Quiet s X) :
    Quiet s (mapUnits X g) :=
  quiet_step h _ rfl rfl rfl rfl

lemma quiet_to_mapEdges {s X : GameState} (g : GameEdge → GameEdge)
    (h : Quiet s X) : Quiet s (mapEdges X g) :=
  quiet_step h _ rfl rfl rfl rfl

lemma quiet_to_mapFactions {s X : GameState} (g : FactionState → FactionState)
    (h : Quiet s X) : Quiet s (mapFactions X g) :=
  quiet_step h _ rfl rfl rfl rfl

lemma quiet_to_addTas {s X : GameState} (n : Nat) (h : Quiet s X) :
    Quiet s (addTas X n) :=
  quiet_step h _ rfl rfl rfl rfl

lemma quiet_to_addKessler {s X : GameState} (n : Nat) (h : Quiet s X) :
    Quiet s (addKessler X n) :=
  quiet_step h _ rfl rfl rfl rfl

lemma quiet_to_bumpTurn {s X : GameState} (h : Quiet s X) :
    Quiet s (bumpTurn X) :=
  quiet_step h _ rfl rfl rfl rfl

lemma quiet_to_setPhase {s X : GameState} (p : GamePhase) (h : Quiet s X) :
    Quiet s (setPhase X p) :=
  quiet_step h _ rfl rfl rfl rfl

lemma quiet_to_addUnit {s X : GameState} (u : Unit) (h : Quiet s X) :
    Quiet s (addUnit X u) :=
  quiet_step h _ rfl rfl rfl rfl

lemma quiet_to_pushHistory {s X : GameState} (r : TurnRecord)
    (h : Quiet s X) : Quiet s (pushHistory X r) :=
  quiet_step h _ rfl rfl rfl rfl

lemma quiet_to_clearPendingResults {s X : GameState} (h : Quiet s X) :
    Quiet s (clearPendingResults X) :=
  quiet_step h _ rfl rfl rfl rfl

lemma quiet_to_destroyUnit {s X : GameState} (uid : String) (h : Quiet s X) :
    Quiet s (destroyUnit X uid) := by
  unfold destroyUnit
  cases findUnit X uid with
  | none => exact h
  | some u =>
      exact quiet_push (quiet_step h _ rfl rfl rfl rfl) _ _ rfl

lemma quiet_to_drawRoll {s X : GameState} (h : Quiet s X) :
    Quiet s (drawRoll X).2 := by
  unfold drawRoll
  cases X.rolls with
  | nil => exact h
  | cons r t => exact quiet_step h _ rfl rfl rfl rfl

lemma quiet_foldl {α : Type} (f : GameState → α → GameState)
    (h : ∀ s a, Quiet s (f s a)) (l : List α) :
    ∀ s, Quiet s (l.foldl f s) := by
  induction l with
  | nil => exact fun s => quiet_refl s
  | cons a t ih =>
      intro s
      simp only [List.foldl_cons]
      exact quiet_trans (h s a) (ih (f s a))

-- ===========================================================================
-- Quiet lemmas for the resolvers
-- ===========================================================================

lemma quiet_resolveResearch (s : GameState) (o : Order) (fid : FactionId) :
    Quiet s (resolveResearch s o fid) := by
  unfold resolveResearch
  cases findFaction s fid with
  | none => exact quiet_refl s
  | some f =>
      dsimp only
      split
      · exact quiet_to_pushLog _ _ (quiet_refl s)
      · refine quiet_to_pushEvent _ _ rfl ?_
        apply quiet_to_pushLog
        cases o.techDomain with
        | none =>
            exact quiet_to_addTas _
              (quiet_to_updateFaction _ _ (quiet_refl s))
        | some d =>
            dsimp only
            refine quiet_trans ?_ (quiet_foldl _ ?_ TECH_TREE _)
            · exact quiet_to_updateFaction _ _
                (quiet_to_addTas _ (quiet_to_updateFaction _ _ (quiet_refl s)))
            · intro s2 tech
              cases findFaction s2 fid with
              | none => exact quiet_refl s2
              | some f2 =>
                  dsimp only
                  split
                  · exact quiet_to_pushEvent _ _ rfl
                      (quiet_to_pushLog _ _
                        (quiet_to_updateFaction _ _ (quiet_refl s2)))
                  · exact quiet_refl s2

lemma quiet_resolveBuild (s : GameState) (o : Order) (fid : FactionId) :
    Quiet s (resolveBuild s o fid) := by
  unfold resolveBuild
  cases o.unitTypeToBuild with
  | none => exact quiet_refl s
  | some ut =>
      cases o.targetNodeId with
      | none => exact quiet_refl s
      | some nid =>
          dsimp only
          cases findFaction s fid with
          | none => exact quiet_refl s
          | some f =>
              dsimp only
              split
              · exact quiet_to_pushLog _ _ (quiet_refl s)
              · split
                · exact quiet_to_pushLog _ _ (quiet_refl s)
                · cases findNode s nid with
                  | none => exact quiet_to_pushLog _ _ (quiet_refl s)
                  | some node =>
                      dsimp only
                      split
                      · exact quiet_to_pushLog _ _ (quiet_refl s)
                      · split
                        · exact quiet_to_pushLog _ _ (quiet_refl s)
                        · exact quiet_to_pushEvent _ _ rfl
                            (quiet_to_pushLog _ _ (quiet_to_addUnit _
                              (quiet_to_updateFaction _ _ (quiet_refl s))))

lemma quiet_resolveAllocationOrder (s : GameState) (o : Order) :
    Quiet s (resolveAllocationOrder s o) := by
  unfold resolveAllocationOrder
  cases findFaction s o.faction with
  | none => exact quiet_refl s
  | some f =>
      dsimp only
      split
      · exact quiet_resolveResearch s o o.faction
      · exact quiet_resolveBuild s o o.faction
      · exact quiet_refl s

lemma quiet_resolveFilter (s : GameState) (o : Order) (u : Unit) :
    Quiet s (resolveFilter s o u) := by
  unfold resolveFilter
  cases o.targetEdgeId with
  | none => exact quiet_refl s
  | some eid =>
      dsimp only
      cases findEdge s eid with
      | none => exact quiet_refl s
      | some edge =>
          dsimp only
          split
          · exact quiet_refl s
          · cases findFaction s u.owner with
            | none => exact quiet_refl s
            | some f =>
                dsimp only
                exact quiet_to_pushEvent _ _ rfl
                  (quiet_to_pushLog _ _
                    (quiet_to_updateEdge _ _ (quiet_refl s)))

lemma quiet_resolveAudit (s : GameState) (o : Order) (u : Unit) :
    Quiet s (resolveAudit s o u) := by
  unfold resolveAudit
  cases findFaction s u.owner with
  | none => exact quiet_refl s
  | some f =>
      dsimp only
      refine quiet_foldl _ ?_ _ s
      intro s2 target
      dsimp only
      split
      · exact quiet_refl s2
      · split
        · split
          · exact quiet_to_drawRoll
              (quiet_to_pushEvent _ _ rfl
                (quiet_to_pushLog _ _
                  (quiet_to_updateFaction _ _
                    (quiet_to_updateUnit _ _ (quiet_refl s2)))))
          · exact quiet_to_pushLog _ _
              (quiet_to_destroyUnit _
                (quiet_to_drawRoll
                  (quiet_to_pushEvent _ _ rfl
                    (quiet_to_pushLog _ _
                      (quiet_to_updateFaction _ _
                        (quiet_to_updateUnit _ _ (quiet_refl s2)))))))
        · exact quiet_to_pushEvent _ _ rfl
            (quiet_to_pushLog _ _
              (quiet_to_updateFaction _ _
                (quiet_to_updateUnit _ _ (quiet_refl s2))))

lemma quiet_resolveAntiSat (s : GameState) (o : Order) (u : Unit) :
    Quiet s (resolveAntiSat s o u) := by
  unfold resolveAntiSat
  split
  · exact quiet_refl s
  · dsimp only
    cases o.targetNodeId with
    | none =>
        exact quiet_to_pushEvent _ _ rfl
          (quiet_to_pushLog _ _
            (quiet_to_addTas _ (quiet_to_addKessler _ (quiet_refl s))))
    | some nid =>
        dsimp only
        have hX : Quiet s (pushEvent
            (pushLog (addTas (addKessler s 15) 1) .ALERT "anti-sat strike")
            .KESSLER_THRESHOLD
            (.kesslerDelta (pushLog (addTas (addKessler s 15) 1) .ALERT
                "anti-sat strike").counters.kessler 15)) :=
          quiet_to_pushEvent _ _ rfl
            (quiet_to_pushLog _ _
              (quiet_to_addTas _ (quiet_to_addKessler _ (quiet_refl s))))
        cases findNode (pushEvent
            (pushLog (addTas (addKessler s 15) 1) .ALERT "anti-sat strike")
            .KESSLER_THRESHOLD
            (.kesslerDelta (pushLog (addTas (addKessler s 15) 1) .ALERT
                "anti-sat strike").counters.kessler 15)) nid with
        | none => exact hX
        | some node =>
            dsimp only
            split
            · exact quiet_to_pushLog _ _ (quiet_to_updateNode _ _ hX)
            · exact hX

lemma quiet_resolveSabotage (s : GameState) (o : Order) (u : Unit) :
    Quiet s (resolveSabotage s o u) := by
  unfold resolveSabotage
  cases o.targetNodeId with
  | none => exact quiet_refl s
  | some nid =>
      dsimp only
      cases findNode s nid with
      | none => exact quiet_refl s
      | some n =>
          dsimp only
          split
          · exact quiet_refl s
          · exact quiet_to_pushLog _ _
              (quiet_to_addTas _ (quiet_to_updateNode _ _ (quiet_refl s)))

lemma quiet_resolveConvert (s : GameState) (u : Unit) :
    Quiet s (resolveConvert s u) := by
  unfold resolveConvert
  cases findNode s u.location with
  | none => exact quiet_refl s
  | some node =>
      dsimp only
      split
      · split
        · exact quiet_to_pushEvent _ _ rfl
            (quiet_to_pushLog _ _ (quiet_to_updateNode _ _ (quiet_refl s)))
        · exact quiet_refl s
      · split
        · split
          · exact quiet_to_pushEvent _ _ rfl
              (quiet_to_pushLog _ _ (quiet_to_updateNode _ _ (quiet_refl s)))
          · exact quiet_refl s
        · exact quiet_refl s

lemma quiet_resolveSpecialOrder (s : GameState) (o : Order) :
    Quiet s (resolveSpecialOrder s o) := by
  unfold resolveSpecialOrder
  cases findUnit s o.unitId with
  | none => exact quiet_refl s
  | some u =>
      dsimp only
      apply quiet_to_updateUnit
      split
      · exact quiet_resolveFilter s o u
      · exact quiet_resolveAudit s o u
      · exact quiet_resolveAntiSat s o u
      · exact quiet_resolveSabotage s o u
      · exact quiet_resolveConvert s u
      · exact quiet_refl s

lemma quiet_resolveCombat (s : GameState) (attackers defenders : List Unit)
    (nodeId : String) : Quiet s (resolveCombat s attackers defenders nodeId) := by
  unfold resolveCombat
  dsimp only
  refine quiet_to_pushEvent _ _ rfl ?_
  apply quiet_to_pushLog
  have hcore : Quiet s (if sidePower attackers defenders >
      sidePower defenders attackers then
        (match findNode (attackers.foldl
            (fun s a => updateUnit s a.id (fun u =>
              { u with location := nodeId, turnsOnNode := 0,
                       hasActed := true }))
            (defenders.foldl (fun s d => destroyUnit s d.id) s)) nodeId with
        | none => attackers.foldl
            (fun s a => updateUnit s a.id (fun u =>
              { u with location := nodeId, turnsOnNode := 0,
                       hasActed := true }))
            (defenders.foldl (fun s d => destroyUnit s d.id) s)
        | some _ =>
            match attackers.head? with
            | none => attackers.foldl
                (fun s a => updateUnit s a.id (fun u =>
                  { u with location := nodeId, turnsOnNode := 0,
                           hasActed := true }))
                (defenders.foldl (fun s d => destroyUnit s d.id) s)
            | some firstAtk =>
                pushEvent (updateNode (attackers.foldl
                    (fun s a => updateUnit s a.id (fun u =>
                      { u with location := nodeId, turnsOnNode := 0,
                               hasActed := true }))
                    (defenders.foldl (fun s d => destroyUnit s d.id) s))
                    nodeId (fun n => { n with owner := some firstAtk.owner }))
                  .NODE_CAPTURED (.nodeCaptured nodeId firstAtk.owner))
      else if sidePower defenders attackers >
          sidePower attackers defenders then
        attackers.foldl (fun s a => destroyUnit s a.id) s
      else s) := by
    have hwin : Quiet s (attackers.foldl
        (fun s a => updateUnit s a.id (fun u =>
          { u with location := nodeId, turnsOnNode := 0, hasActed := true }))
        (defenders.foldl (fun s d => destroyUnit s d.id) s)) :=
      quiet_trans
        (quiet_foldl _ (fun s2 d => quiet_to_destroyUnit _ (quiet_refl s2))
          defenders s)
        (quiet_foldl _ (fun s2 a => quiet_to_updateUnit _ _ (quiet_refl s2))
          attackers _)
    split
    · cases findNode (attackers.foldl
          (fun s a => updateUnit s a.id (fun u =>
            { u with location := nodeId, turnsOnNode := 0,
                     hasActed := true }))
          (defenders.foldl (fun s d => destroyUnit s d.id) s)) nodeId with
      | none => exact hwin
      | some n =>
          dsimp only
          cases attackers.head? with
          | none => exact hwin
          | some firstAtk =>
              exact quiet_to_pushEvent _ _ rfl (quiet_to_updateNode _ _ hwin)
    · split
      · exact quiet_foldl _
          (fun s2 a => quiet_to_destroyUnit _ (quiet_refl s2)) attackers s
      · exact quiet_refl s
  split
  · exact quiet_to_addTas _ hcore
  · exact hcore

lemma quiet_stealthCheckStep (nodeId : String) (s : GameState) (m : Mover) :
    Quiet s (stealthCheckStep nodeId s m) := by
  unfold stealthCheckStep
  cases findUnit s m.unitId with
  | none => exact quiet_refl s
  | some unit =>
      dsimp only
      cases getEdgeBetween s unit.location nodeId with
      | none => exact quiet_refl s
      | some edge =>
          dsimp only
          cases edge.filteredBy with
          | none => exact quiet_refl s
          | some fb =>
              dsimp only
              split
              · exact quiet_refl s
              · cases findFaction s fb with
                | none => exact quiet_refl s
                | some f =>
                    dsimp only
                    split
                    · exact quiet_to_drawRoll (quiet_refl s)
                    · exact quiet_to_pushLog _ _
                        (quiet_to_destroyUnit _
                          (quiet_to_drawRoll (quiet_refl s)))

lemma quiet_unopposedMoveStep (nodeId : String) (s : GameState) (m : Mover) :
    Quiet s (unopposedMoveStep nodeId s m) := by
  unfold unopposedMoveStep
  dsimp only
  cases findUnit (updateUnit s m.unitId (fun u =>
      { u with location := nodeId, turnsOnNode := 0, hasActed := true }))
      m.unitId with
  | none => exact quiet_to_updateUnit _ _ (quiet_refl s)
  | some unit =>
      dsimp only
      cases findNode (updateUnit s m.unitId (fun u =>
          { u with location := nodeId, turnsOnNode := 0, hasActed := true }))
          nodeId with
      | none => exact quiet_to_updateUnit _ _ (quiet_refl s)
      | some node =>
          dsimp only
          split
          · exact quiet_to_pushEvent _ _ rfl
              (quiet_to_pushLog _ _
                (quiet_to_updateNode _ _
                  (quiet_to_updateUnit _ _ (quiet_refl s))))
          · exact quiet_to_updateUnit _ _ (quiet_refl s)

lemma quiet_resolveDestination (pairs : List (String × Mover))
    (s : GameState) (nodeId : String) :
    Quiet s (resolveDestination pairs s nodeId) := by
  unfold resolveDestination
  dsimp only
  split
  · exact quiet_foldl _ (quiet_stealthCheckStep nodeId) _ s
  · split
    · exact quiet_trans
        (quiet_foldl _ (quiet_stealthCheckStep nodeId) _ s)
        (quiet_resolveCombat _ _ _ _)
    · exact quiet_trans
        (quiet_foldl _ (quiet_stealthCheckStep nodeId) _ s)
        (quiet_foldl _ (quiet_unopposedMoveStep nodeId) _ _)

lemma quiet_resolveMovementPhase (s : GameState) (orders : List Order) :
    Quiet s (resolveMovementPhase s orders) := by
  unfold resolveMovementPhase
  exact quiet_foldl _ (fun s2 nid => quiet_resolveDestination _ s2 nid) _ s

lemma quiet_resolveAllOrders (s : GameState) :
    Quiet s (resolveAllOrders s) := by
  unfold resolveAllOrders
  dsimp only
  refine quiet_trans ?_ (quiet_resolveMovementPhase _ _)
  exact quiet_trans
    (quiet_foldl _ (fun s2 o => quiet_resolveAllocationOrder s2 o) _ s)
    (quiet_foldl _ (fun s2 o => quiet_resolveSpecialOrder s2 o) _ _)

lemma quiet_submitOrders (s : GameState) (fid : FactionId)
    (orders : List Order) : Quiet s (submitOrders s fid orders).1 := by
  unfold submitOrders
  split
  · exact quiet_refl s
  · cases findFaction s fid with
    | none => exact quiet_refl s
    | some f =>
        dsimp only
        cases orders.find? (fun o => !(validateOrder s o fid).valid) with
        | none =>
            exact quiet_to_pushEvent _ _ rfl
              (quiet_to_pushLog _ _
                (quiet_to_updateFaction _ _ (quiet_refl s)))
        | some bad => exact quiet_refl s

lemma quiet_endTurn (s : GameState) : Quiet s (endTurn s) := by
  unfold endTurn
  exact quiet_to_pushEvent _ _ rfl
    (quiet_to_pushLog _ _
      (quiet_to_setPhase _
        (quiet_to_bumpTurn
          (quiet_to_mapUnits _
            (quiet_to_clearPendingResults
              (quiet_to_pushHistory _
                (quiet_to_mapFactions _ (quiet_refl s))))))))

-- ===========================================================================
-- Counters/events preservation facts for the TURN_END sub-phases
-- ===========================================================================

lemma resourceStep_counters_events (s : GameState) (n : GameNode) :
    (resourceStep s n).counters = s.counters ∧
    (resourceStep s n).events = s.events := by
  unfold resourceStep
  cases n.owner with
  | none => exact ⟨rfl, rfl⟩
  | some fid =>
      dsimp only
      split
      · exact ⟨rfl, rfl⟩
      · cases findFaction s fid with
        | none => exact ⟨rfl, rfl⟩
        | some f => exact ⟨rfl, rfl⟩

lemma foldl_resourceStep_counters_events (l : List GameNode) :
    ∀ s : GameState, ((l.foldl resourceStep s).counters = s.counters ∧
      (l.foldl resourceStep s).events = s.events) := by
  induction l with
  | nil => exact fun s => ⟨rfl, rfl⟩
  | cons n t ih =>
      intro s
      simp only [List.foldl_cons]
      rcases ih (resourceStep s n) with ⟨hc, he⟩
      rcases resourceStep_counters_events s n with ⟨hc2, he2⟩
      exact ⟨hc.trans hc2, he.trans he2⟩

lemma generateResources_counters (s : GameState) :
    (generateResources s).counters = s.counters := by
  unfold generateResources
  simpa using (foldl_resourceStep_counters_events s.nodes s).1

lemma generateResources_events (s : GameState) :
    (generateResources s).events = s.events := by
  unfold generateResources
  simpa using (foldl_resourceStep_counters_events s.nodes s).2

lemma footholdStep_counters (s : GameState) (u : Unit) :
    (footholdStep s u).counters = s.counters := by
  unfold footholdStep
  split
  · cases findNode s u.location with
    | none => rfl
    | some node =>
        dsimp only
        split
        · rfl
        · rfl
  · rfl

lemma checkFootholdConversions_counters (s : GameState) :
    (checkFootholdConversions s).counters = s.counters := by
  unfold checkFootholdConversions
  have h : ∀ (l : List Unit) (s : GameState),
      (l.foldl footholdStep s).counters = s.counters := by
    intro l
    induction l with
    | nil => exact fun s => rfl
    | cons v t ih =>
        intro s
        simp only [List.foldl_cons]
        exact (ih (footholdStep s v)).trans (footholdStep_counters s v)
  exact h s.units s

lemma quiet_footholdStep (s : GameState) (u : Unit) :
    Quiet s (footholdStep s u) := by
  unfold footholdStep
  split
  · cases findNode s u.location with
    | none => exact quiet_refl s
    | some node =>
        dsimp only
        split
        · exact quiet_to_pushEvent _ _ rfl
            (quiet_to_pushLog _ _ (quiet_to_updateNode _ _ (quiet_refl s)))
        · exact quiet_refl s
  · exact quiet_refl s

lemma quiet_checkFootholdConversions (s : GameState) :
    Quiet s (checkFootholdConversions s) := by
  unfold checkFootholdConversions
  exact quiet_foldl _ quiet_footholdStep _ s

-- ===========================================================================
-- Specification of checkGlobalThresholds (for C2, C3, C6)
-- ===========================================================================

lemma destroyUnit_events (s : GameState) (uid : String) :
    ∃ l, (destroyUnit s uid).events = s.events ++ l ∧
      ∀ e ∈ l, e.type = GameEventType.UNIT_DESTROYED := by
  unfold destroyUnit
  cases findUnit s uid with
  | none => exact ⟨[], by simp, by simp⟩
  | some u =>
      refine ⟨[⟨.UNIT_DESTROYED, .unitDestroyed uid, s.counters.turn,
        s.phase⟩], rfl, ?_⟩
      intro e he
      simp only [List.mem_singleton] at he
      subst he
      rfl

lemma orbitalDestroyStep_events (s : GameState) (u : Unit) :
    (∃ l, (orbitalDestroyStep s u).events = s.events ++ l ∧
      ∀ e ∈ l, e.type = GameEventType.UNIT_DESTROYED) ∧
    (orbitalDestroyStep s u).counters = s.counters := by
  unfold orbitalDestroyStep
  cases findNode s u.location with
  | none => exact ⟨⟨[], by simp, by simp⟩, rfl⟩
  | some node =>
      dsimp only
      split
      · exact ⟨destroyUnit_events s u.id, destroyUnit_counters s u.id⟩
      · exact ⟨⟨[], by simp, by simp⟩, rfl⟩

lemma foldl_orbitalDestroy_events (l : List Unit) :
    ∀ s : GameState,
      (∃ l2, (l.foldl orbitalDestroyStep s).events = s.events ++ l2 ∧
        ∀ e ∈ l2, e.type = GameEventType.UNIT_DESTROYED) ∧
      (l.foldl orbitalDestroyStep s).counters = s.counters := by
  induction l with
  | nil => exact fun s => ⟨⟨[], by simp, by simp⟩, rfl⟩
  | cons v t ih =>
      intro s
      simp only [List.foldl_cons]
      rcases orbitalDestroyStep_events s v with ⟨⟨l1, he1, hp1⟩, hc1⟩
      rcases ih (orbitalDestroyStep s v) with ⟨⟨l2, he2, hp2⟩, hc2⟩
      refine ⟨⟨l1 ++ l2, ?_, ?_⟩, hc2.trans hc1⟩
      · rw [he2, he1, List.append_assoc]
      · intro e he
        rcases List.mem_append.mp he with h | h
        · exact hp1 e h
        · exact hp2 e h

lemma tasPanicStage_spec (s : GameState) :
    ∃ l, (tasPanicStage s).events = s.events ++ l ∧
      ((∃ e ∈ l, isPanicAlert e = true) ↔
        (s.counters.tas ≥ TAS_PANIC ∧ s.counters.regulatoryPanic = false)) ∧
      (∀ e ∈ l, e.type ≠ GameEventType.GAME_OVER) ∧
      (tasPanicStage s).counters.regulatoryPanic =
        (s.counters.regulatoryPanic || decide (s.counters.tas ≥ TAS_PANIC)) ∧
      (tasPanicStage s).counters.protocolFailure =
        s.counters.protocolFailure ∧
      (tasPanicStage s).counters.orbitalCollapse =
        s.counters.orbitalCollapse ∧
      (tasPanicStage s).counters.tas = s.counters.tas ∧
      (tasPanicStage s).counters.kessler = s.counters.kessler := by
  unfold tasPanicStage
  by_cases h : s.counters.tas ≥ TAS_PANIC ∧ s.counters.regulatoryPanic = false
  · rw [if_pos h]
    refine ⟨_, rfl, ?_, ?_, ?_, rfl, rfl, rfl, rfl⟩
    · constructor
      · intro _; exact h
      · intro _; exact ⟨_, List.mem_singleton_self _, rfl⟩
    · intro e he
      simp only [List.mem_singleton] at he
      subst he
      simp
    · rw [h.2]
      simp [h.1]
  · rw [if_neg h]
    refine ⟨[], by simp, ?_, ?_, ?_, rfl, rfl, rfl, rfl⟩
    · simp only [List.not_mem_nil, false_and, exists_false, false_iff]
      exact h
    · simp
    · cases hrp : s.counters.regulatoryPanic
      · have hnt : ¬ s.counters.tas ≥ TAS_PANIC := fun ht => h ⟨ht, hrp⟩
        simp [hnt]
      · simp

lemma tasFailureStage_spec (s : GameState) :
    ∃ l, (tasFailureStage s).events = s.events ++ l ∧
      (∀ e ∈ l, isPanicAlert e = false) ∧
      (∀ e ∈ l, e.type = GameEventType.GAME_OVER →
        e.payload = .gameOver "PROTOCOL_FAILURE" s.counters.tas) ∧
      ((∃ e ∈ l, e.type = GameEventType.GAME_OVER) ↔
        (s.counters.tas ≥ TAS_FAILURE ∧
          s.counters.protocolFailure = false)) ∧
      (tasFailureStage s).counters.regulatoryPanic =
        s.counters.regulatoryPanic ∧
      (tasFailureStage s).counters.protocolFailure =
        (s.counters.protocolFailure ||
          decide (s.counters.tas ≥ TAS_FAILURE)) ∧
      (tasFailureStage s).counters.orbitalCollapse =
        s.counters.orbitalCollapse ∧
      (tasFailureStage s).counters.tas = s.counters.tas ∧
      (tasFailureStage s).counters.kessler = s.counters.kessler := by
  unfold tasFailureStage
  by_cases h : s.counters.tas ≥ TAS_FAILURE ∧
      s.counters.protocolFailure = false
  · rw [if_pos h]
    refine ⟨_, rfl, ?_, ?_, ?_, rfl, ?_, rfl, rfl, rfl⟩
    · intro e he
      simp only [List.mem_singleton] at he
      subst he
      rfl
    · intro e he
      simp only [List.mem_singleton] at he
      subst he
      intro _
      rfl
    · constructor
      · intro _; exact h
      · intro _; exact ⟨_, List.mem_singleton_self _, rfl⟩
    · rw [h.2]
      simp [h.1]
  · rw [if_neg h]
    refine ⟨[], by simp, by simp, by simp, ?_, rfl, ?_, rfl, rfl, rfl⟩
    · simp only [List.not_mem_nil, false_and, exists_false, false_iff]
      exact h
    · cases hpf : s.counters.protocolFailure
      · have hnt : ¬ s.counters.tas ≥ TAS_FAILURE := fun ht => h ⟨ht, hpf⟩
        simp [hnt]
      · simp

lemma kesslerStage_spec (s : GameState) :
    ∃ l, (kesslerStage s).events = s.events ++ l ∧
      (∀ e ∈ l, isPanicAlert e = false) ∧
      (∀ e ∈ l, e.type ≠ GameEventType.GAME_OVER) ∧
      (kesslerStage s).counters.regulatoryPanic =
        s.counters.regulatoryPanic ∧
      (kesslerStage s).counters.protocolFailure =
        s.counters.protocolFailure ∧
      (kesslerStage s).counters.orbitalCollapse =
        (s.counters.orbitalCollapse ||
          decide (s.counters.kessler ≥ KESSLER_COLLAPSE)) := by
  unfold kesslerStage
  by_cases h : s.counters.kessler ≥ KESSLER_COLLAPSE ∧
      s.counters.orbitalCollapse = false
  · rw [if_pos h]
    dsimp only
    set base := mapEdges (pushLog (setLatchCollapse s) .ALERT
      "kessler syndrome")
      (fun e => if e.type = EdgeType.LASER then { e with isSevered := true }
        else e) with hbase
    rcases foldl_orbitalDestroy_events base.units base with
      ⟨⟨l2, he2, hp2⟩, hc2⟩
    have hbe : base.events = s.events := rfl
    refine ⟨l2 ++ [⟨.KESSLER_THRESHOLD, .kesslerThreshold
      (base.units.foldl orbitalDestroyStep base).counters.kessler "COLLAPSE",
      (base.units.foldl orbitalDestroyStep base).counters.turn,
      (base.units.foldl orbitalDestroyStep base).phase⟩],
      ?_, ?_, ?_, ?_, ?_, ?_⟩
    · rw [pushEvent_events, he2, hbe, List.append_assoc]
    · intro e he
      rcases List.mem_append.mp he with hh | hh
      · have ht := hp2 e hh
        simp [isPanicAlert, panicSig, ht]
      · simp only [List.mem_singleton] at hh
        subst hh
        rfl
    · intro e he
      rcases List.mem_append.mp he with hh | hh
      · have ht := hp2 e hh
        simp [ht]
      · simp only [List.mem_singleton] at hh
        subst hh
        simp
    · rw [pushEvent_counters, hc2]
      rfl
    · rw [pushEvent_counters, hc2]
      rfl
    · rw [pushEvent_counters, hc2]
      have hb : base.counters.orbitalCollapse = true := rfl
      rw [hb, h.2]
      simp [h.1]
  · rw [if_neg h]
    refine ⟨[], by simp, by simp, by simp, rfl, rfl, ?_⟩
    cases hoc : s.counters.orbitalCollapse
    · have hnk : ¬ s.counters.kessler ≥ KESSLER_COLLAPSE :=
        fun hk => h ⟨hk, hoc⟩
      simp [hnk]
    · simp

/-- Full behaviour of `checkGlobalThresholds` on the three latches and the
alert/game-over emissions, in terms of the pre-check counters. -/
lemma checkGlobalThresholds_spec (s : GameState) :
    ∃ l, (checkGlobalThresholds s).events = s.events ++ l ∧
      ((∃ e ∈ l, isPanicAlert e = true) ↔
        (s.counters.tas ≥ TAS_PANIC ∧ s.counters.regulatoryPanic = false)) ∧
      ((checkGlobalThresholds s).counters.regulatoryPanic =
        (s.counters.regulatoryPanic || decide (s.counters.tas ≥ TAS_PANIC))) ∧
      ((checkGlobalThresholds s).counters.protocolFailure =
        (s.counters.protocolFailure ||
          decide (s.counters.tas ≥ TAS_FAILURE))) ∧
      ((checkGlobalThresholds s).counters.orbitalCollapse =
        (s.counters.orbitalCollapse ||
          decide (s.counters.kessler ≥ KESSLER_COLLAPSE))) ∧
      (∀ e ∈ l, e.type = GameEventType.GAME_OVER →
        e.payload = .gameOver "PROTOCOL_FAILURE" s.counters.tas) ∧
      ((∃ e ∈ l, e.type = GameEventType.GAME_OVER) ↔
        (s.counters.tas ≥ TAS_FAILURE ∧
          s.counters.protocolFailure = false)) := by
  obtain ⟨l1, e1, iff1, go1, rp1, pf1, oc1, tas1, kes1⟩ := tasPanicStage_spec s
  obtain ⟨l2, e2, np2, gop2, goiff2, rp2, pf2, oc2, tas2, kes2⟩ :=
    tasFailureStage_spec (tasPanicStage s)
  obtain ⟨l3, e3, np3, go3, rp3, pf3, oc3⟩ :=
    kesslerStage_spec (tasFailureStage (tasPanicStage s))
  refine ⟨l1 ++ (l2 ++ l3), ?_, ?_, ?_, ?_, ?_, ?_, ?_⟩
  · show (kesslerStage (tasFailureStage (tasPanicStage s))).events = _
    rw [e3, e2, e1]
    simp [List.append_assoc]
  · constructor
    · rintro ⟨e, he, hpa⟩
      rcases List.mem_append.mp he with hh | hh
      · exact iff1.mp ⟨e, hh, hpa⟩
      · rcases List.mem_append.mp hh with hh2 | hh2
        · rw [np2 e hh2] at hpa; cases hpa
        · rw [np3 e hh2] at hpa; cases hpa
    · intro hcond
      rcases iff1.mpr hcond with ⟨e, he, hpa⟩
      exact ⟨e, List.mem_append.mpr (Or.inl he), hpa⟩
  · show (kesslerStage (tasFailureStage (tasPanicStage s))).counters.regulatoryPanic = _
    rw [rp3, rp2, rp1]
  · show (kesslerStage (tasFailureStage (tasPanicStage s))).counters.protocolFailure = _
    rw [pf3, pf2, pf1, tas1]
  · show (kesslerStage (tasFailureStage (tasPanicStage s))).counters.orbitalCollapse = _
    rw [oc3, oc2, oc1, kes2, kes1]
  · intro e he hgo
    rcases List.mem_append.mp he with hh | hh
    · exact absurd hgo (go1 e hh)
    · rcases List.mem_append.mp hh with hh2 | hh2
      · have := gop2 e hh2 hgo
        rw [tas1] at this
        exact this
      · exact absurd hgo (go3 e hh2)
  · constructor
    · rintro ⟨e, he, hgo⟩
      rcases List.mem_append.mp he with hh | hh
      · exact absurd hgo (go1 e hh)
      · rcases List.mem_append.mp hh with hh2 | hh2
        · have := goiff2.mp ⟨e, hh2, hgo⟩
          rw [tas1, pf1] at this
          exact this
        · exact absurd hgo (go3 e hh2)
    · intro hcond
      have hcond2 : (tasPanicStage s).counters.tas ≥ TAS_FAILURE ∧
          (tasPanicStage s).counters.protocolFailure = false := by
        rw [tas1, pf1]; exact hcond
      rcases goiff2.mpr hcond2 with ⟨e, he, hgo⟩
      exact ⟨e, List.mem_append.mpr (Or.inr (List.mem_append.mpr
        (Or.inl he))), hgo⟩

-- ===========================================================================
-- C6: game-over emissions of the TURN_END check
-- ===========================================================================

/-- C6 (amended): the TURN_END threshold check emits a game-over event
only for protocol failure — every `GAME_OVER` event it emits carries
reason PROTOCOL_FAILURE, and one is emitted exactly when `tas` has reached
`TAS_FAILURE` with the latch not yet set.  A faction having zero surviving
units and zero Hubs triggers nothing: the engine has no elimination check
(see the counterexample). -/
theorem C6_gameover_only_protocol_failure (s : GameState) :
    (∀ e ∈ (checkGlobalThresholds s).events.drop s.events.length,
        e.type = GameEventType.GAME_OVER →
          e.payload = .gameOver "PROTOCOL_FAILURE" s.counters.tas) ∧
    ((∃ e ∈ (checkGlobalThresholds s).events.drop s.events.length,
        e.type = GameEventType.GAME_OVER) ↔
      (s.counters.tas ≥ TAS_FAILURE ∧
        s.counters.protocolFailure = false)) := by
  obtain ⟨l, he, _, _, _, _, hgo, hiff⟩ := checkGlobalThresholds_spec s
  rw [he, List.drop_left]
  exact ⟨hgo, hiff⟩

/-- A fixture whose `tas` has reached the failure threshold. -/
def stF : GameState :=
  { st0 with counters := { baseCounters with tas := 100 } }

/-- Witness for C6 (amended): at the failure threshold the check emits a
game-over event (necessarily with reason PROTOCOL_FAILURE). -/
theorem C6_gameover_only_protocol_failure_witness :
    ∃ e ∈ (checkGlobalThresholds stF).events.drop stF.events.length,
      e.type = GameEventType.GAME_OVER :=
  (C6_gameover_only_protocol_failure stF).2.mpr ⟨by decide, rfl⟩

/-- Counterexample to C6 as stated: in the fixture, faction STATE has zero
units and zero owned nodes (hence zero Hubs), yet the next TURN_END
transition emits no game-over event at all — there is no
"faction eliminated" game-over in the engine. -/
theorem C6_counterexample :
    getUnitsForFaction st5 .STATE = [] ∧
    st5.nodes.filter (fun n => n.owner = some FactionId.STATE) = [] ∧
    st5.phase = .RESOLUTION ∧
    (advancePhase st5).events.filter
      (fun e => e.type = GameEventType.GAME_OVER) = [] := by
  decide

-- ===========================================================================
-- Per-operation panic characterization (for C2 and C3)
-- ===========================================================================

/-- The events emitted by one public operation (the event trace is
append-only, so these are the entries past the starting trace). -/
def opEvents (s : GameState) (op : Op) : List GameEvent :=
  (applyOp s op).events.drop s.events.length

/-- The operation is the `advancePhase` call that runs the TURN_END checks
(threshold monitor included): an advance taken in phase RESOLUTION. -/
def isTurnEndEval (s : GameState) (op : Op) : Prop :=
  op = Op.advance ∧ s.phase = GamePhase.RESOLUTION

lemma panic_spec_of_quiet {s : GameState} {op : Op}
    (h : Quiet s (applyOp s op)) (hno : ¬ isTurnEndEval s op) :
    ((∃ e ∈ opEvents s op, isPanicAlert e = true) ↔
      (isTurnEndEval s op ∧ s.counters.tas ≥ TAS_PANIC ∧
        s.counters.regulatoryPanic = false)) ∧
    ((applyOp s op).counters.regulatoryPanic = true ↔
      (s.counters.regulatoryPanic = true ∨
        (isTurnEndEval s op ∧ s.counters.tas ≥ TAS_PANIC))) := by
  obtain ⟨hrp, _, _, l, he, hl⟩ := h
  constructor
  · constructor
    · rintro ⟨e, he2, hpa⟩
      simp only [opEvents, he, List.drop_left] at he2
      rw [hl e he2] at hpa
      cases hpa
    · rintro ⟨hev, _⟩
      exact absurd hev hno
  · rw [hrp]
    constructor
    · exact Or.inl
    · rintro (hh | ⟨hev, _⟩)
      · exact hh
      · exact absurd hev hno

@[simp] lemma incrementTurnsOnNodes_counters (s : GameState) :
    (incrementTurnsOnNodes s).counters = s.counters := rfl
@[simp] lemma incrementTurnsOnNodes_events (s : GameState) :
    (incrementTurnsOnNodes s).events = s.events := rfl

lemma advance_resolution_panic (s : GameState)
    (hph : s.phase = GamePhase.RESOLUTION) :
    ((∃ e ∈ opEvents s Op.advance, isPanicAlert e = true) ↔
      (s.counters.tas ≥ TAS_PANIC ∧ s.counters.regulatoryPanic = false)) ∧
    ((applyOp s Op.advance).counters.regulatoryPanic = true ↔
      (s.counters.regulatoryPanic = true ∨ s.counters.tas ≥ TAS_PANIC)) := by
  have happ : applyOp s Op.advance =
      pushEvent (checkFootholdConversions (incrementTurnsOnNodes
        (checkGlobalThresholds (generateResources
          (pushLog (setPhase s GamePhase.TURN_END) LogType.SYSTEM
            "phase turn end")))))
        GameEventType.PHASE_CHANGED
        (EventPayload.phaseChanged GamePhase.RESOLUTION
          (checkFootholdConversions (incrementTurnsOnNodes
            (checkGlobalThresholds (generateResources
              (pushLog (setPhase s GamePhase.TURN_END) LogType.SYSTEM
                "phase turn end"))))).phase) := by
    show advancePhase s = _
    unfold advancePhase
    rw [hph]
  have hGc : (generateResources (pushLog (setPhase s GamePhase.TURN_END)
      LogType.SYSTEM "phase turn end")).counters = s.counters :=
    (generateResources_counters _).trans rfl
  have hGe : (generateResources (pushLog (setPhase s GamePhase.TURN_END)
      LogType.SYSTEM "phase turn end")).events = s.events :=
    (generateResources_events _).trans rfl
  obtain ⟨l, he, hpiff, hrp, _, _, _, _⟩ := checkGlobalThresholds_spec
    (generateResources (pushLog (setPhase s GamePhase.TURN_END)
      LogType.SYSTEM "phase turn end"))
  rw [hGc] at hpiff hrp
  rw [hGe] at he
  have hq : Quiet (checkGlobalThresholds (generateResources
      (pushLog (setPhase s GamePhase.TURN_END) LogType.SYSTEM
        "phase turn end"))) (applyOp s Op.advance) := by
    rw [happ]
    refine quiet_to_pushEvent _ _ rfl ?_
    refine quiet_trans ?_ (quiet_checkFootholdConversions _)
    exact quiet_step (quiet_refl _) _ rfl rfl rfl rfl
  obtain ⟨hqrp, _, _, lt, hqe, hqlt⟩ := hq
  have hoe : opEvents s Op.advance = l ++ lt := by
    unfold opEvents
    rw [hqe, he, List.append_assoc, List.drop_left]
  constructor
  · rw [hoe]
    constructor
    · rintro ⟨e, hem, hpa⟩
      rcases List.mem_append.mp hem with hh | hh
      · exact hpiff.mp ⟨e, hh, hpa⟩
      · rw [hqlt e hh] at hpa
        cases hpa
    · intro hc
      rcases hpiff.mpr hc with ⟨e, hem, hpa⟩
      exact ⟨e, List.mem_append.mpr (Or.inl hem), hpa⟩
  · rw [hqrp, hrp]
    cases hsrp : s.counters.regulatoryPanic <;>
      by_cases ht : s.counters.tas ≥ TAS_PANIC <;>
      simp [ht]

lemma applyOp_panic_spec (s : GameState) (op : Op) :
    ((∃ e ∈ opEvents s op, isPanicAlert e = true) ↔
      (isTurnEndEval s op ∧ s.counters.tas ≥ TAS_PANIC ∧
        s.counters.regulatoryPanic = false)) ∧
    ((applyOp s op).counters.regulatoryPanic = true ↔
      (s.counters.regulatoryPanic = true ∨
        (isTurnEndEval s op ∧ s.counters.tas ≥ TAS_PANIC))) := by
  cases op with
  | submit fid orders =>
      refine panic_spec_of_quiet (quiet_submitOrders s fid orders) ?_
      rintro ⟨hc, _⟩
      cases hc
  | advance =>
      cases hph : s.phase with
      | NEGOTIATION =>
          refine panic_spec_of_quiet ?_ ?_
          · show Quiet s (advancePhase s)
            unfold advancePhase
            rw [hph]
            exact quiet_to_pushEvent _ _ rfl
              (quiet_to_pushLog _ _ (quiet_to_setPhase _ (quiet_refl s)))
          · rintro ⟨_, hp⟩
            rw [hph] at hp
            cases hp
      | ALLOCATION =>
          refine panic_spec_of_quiet ?_ ?_
          · show Quiet s (advancePhase s)
            unfold advancePhase
            rw [hph]
            exact quiet_to_pushEvent _ _ rfl
              (quiet_to_pushLog _ _ (quiet_to_setPhase _ (quiet_refl s)))
          · rintro ⟨_, hp⟩
            rw [hph] at hp
            cases hp
      | ACTION_DECLARATION =>
          refine panic_spec_of_quiet ?_ ?_
          · show Quiet s (advancePhase s)
            unfold advancePhase
            rw [hph]
            refine quiet_to_pushEvent _ _ rfl ?_
            exact quiet_trans
              (quiet_to_pushLog _ _ (quiet_to_setPhase _ (quiet_refl s)))
              (quiet_resolveAllOrders _)
          · rintro ⟨_, hp⟩
            rw [hph] at hp
            cases hp
      | TURN_END =>
          refine panic_spec_of_quiet ?_ ?_
          · show Quiet s (advancePhase s)
            unfold advancePhase
            rw [hph]
            exact quiet_to_pushEvent _ _ rfl (quiet_endTurn s)
          · rintro ⟨_, hp⟩
            rw [hph] at hp
            cases hp
      | RESOLUTION =>
          obtain ⟨h1, h2⟩ := advance_resolution_panic s hph
          constructor
          · rw [h1]
            constructor
            · intro hc
              exact ⟨⟨rfl, hph⟩, hc⟩
            · rintro ⟨_, hc⟩
              exact hc
          · rw [h2]
            constructor
            · rintro (hh | hh)
              · exact Or.inl hh
              · exact Or.inr ⟨⟨rfl, hph⟩, hh⟩
            · rintro (hh | ⟨_, hh⟩)
              · exact Or.inl hh
              · exact Or.inr hh

-- ===========================================================================
-- C2: latch monotonicity
-- ===========================================================================

/-- Every public operation outside the TURN_END evaluation is quiet. -/
lemma quiet_applyOp (s : GameState) (op : Op) (h : ¬ isTurnEndEval s op) :
    Quiet s (applyOp s op) := by
  cases op with
  | submit fid orders => exact quiet_submitOrders s fid orders
  | advance =>
      cases hph : s.phase with
      | RESOLUTION => exact absurd ⟨rfl, hph⟩ h
      | NEGOTIATION =>
          show Quiet s (advancePhase s)
          unfold advancePhase
          rw [hph]
          exact quiet_to_pushEvent _ _ rfl
            (quiet_to_pushLog _ _ (quiet_to_setPhase _ (quiet_refl s)))
      | ALLOCATION =>
          show Quiet s (advancePhase s)
          unfold advancePhase
          rw [hph]
          exact quiet_to_pushEvent _ _ rfl
            (quiet_to_pushLog _ _ (quiet_to_setPhase _ (quiet_refl s)))
      | ACTION_DECLARATION =>
          show Quiet s (advancePhase s)
          unfold advancePhase
          rw [hph]
          refine quiet_to_pushEvent _ _ rfl ?_
          exact quiet_trans
            (quiet_to_pushLog _ _ (quiet_to_setPhase _ (quiet_refl s)))
            (quiet_resolveAllOrders _)
      | TURN_END =>
          show Quiet s (advancePhase s)
          unfold advancePhase
          rw [hph]
          exact quiet_to_pushEvent _ _ rfl (quiet_endTurn s)

/-- The TURN_END advance maps all three latches through the threshold
disjunction. -/
lemma advance_resolution_latches (s : GameState)
    (hph : s.phase = GamePhase.RESOLUTION) :
    (applyOp s Op.advance).counters.regulatoryPanic =
      (s.counters.regulatoryPanic || decide (s.counters.tas ≥ TAS_PANIC)) ∧
    (applyOp s Op.advance).counters.protocolFailure =
      (s.counters.protocolFailure || decide (s.counters.tas ≥ TAS_FAILURE)) ∧
    (applyOp s Op.advance).counters.orbitalCollapse =
      (s.counters.orbitalCollapse ||
        decide (s.counters.kessler ≥ KESSLER_COLLAPSE)) := by
  have happ : applyOp s Op.advance =
      pushEvent (checkFootholdConversions (incrementTurnsOnNodes
        (checkGlobalThresholds (generateResources
          (pushLog (setPhase s GamePhase.TURN_END) LogType.SYSTEM
            "phase turn end")))))
        GameEventType.PHASE_CHANGED
        (EventPayload.phaseChanged GamePhase.RESOLUTION
          (checkFootholdConversions (incrementTurnsOnNodes
            (checkGlobalThresholds (generateResources
              (pushLog (setPhase s GamePhase.TURN_END) LogType.SYSTEM
                "phase turn end"))))).phase) := by
    show advancePhase s = _
    unfold advancePhase
    rw [hph]
  have hGc : (generateResources (pushLog (setPhase s GamePhase.TURN_END)
      LogType.SYSTEM "phase turn end")).counters = s.counters :=
    (generateResources_counters _).trans rfl
  obtain ⟨l, he, hpiff, hrp, hpf, hoc, _, _⟩ := checkGlobalThresholds_spec
    (generateResources (pushLog (setPhase s GamePhase.TURN_END)
      LogType.SYSTEM "phase turn end"))
  rw [hGc] at hrp hpf hoc
  have hcc : (applyOp s Op.advance).counters =
      (checkGlobalThresholds (generateResources
        (pushLog (setPhase s GamePhase.TURN_END) LogType.SYSTEM
          "phase turn end"))).counters := by
    rw [happ, pushEvent_counters]
    exact (checkFootholdConversions_counters _).trans rfl
  rw [hcc]
  exact ⟨hrp, hpf, hoc⟩

lemma applyOp_latch_mono (s : GameState) (op : Op) :
    (s.counters.regulatoryPanic = true →
      (applyOp s op).counters.regulatoryPanic = true) ∧
    (s.counters.protocolFailure = true →
      (applyOp s op).counters.protocolFailure = true) ∧
    (s.counters.orbitalCollapse = true →
      (applyOp s op).counters.orbitalCollapse = true) := by
  by_cases hev : isTurnEndEval s op
  · obtain ⟨hop, hph⟩ := hev
    subst hop
    obtain ⟨h1, h2, h3⟩ := advance_resolution_latches s hph
    refine ⟨?_, ?_, ?_⟩ <;> intro hh <;> simp [h1, h2, h3, hh]
  · obtain ⟨e1, e2, e3, _⟩ := quiet_applyOp s op hev
    exact ⟨fun h => e1.trans h, fun h => e2.trans h, fun h => e3.trans h⟩

/-- C2: across any sequence of public operations (`submitOrders` /
`advancePhase`) from any state, the three latch booleans
`regulatoryPanic`, `protocolFailure` and `orbitalCollapse` are monotone:
once true they are never reset to false by any later operation. -/
theorem C2_latches_monotone (s : GameState) (ops : List Op) :
    (s.counters.regulatoryPanic = true →
      (runOps s ops).counters.regulatoryPanic = true) ∧
    (s.counters.protocolFailure = true →
      (runOps s ops).counters.protocolFailure = true) ∧
    (s.counters.orbitalCollapse = true →
      (runOps s ops).counters.orbitalCollapse = true) := by
  induction ops generalizing s with
  | nil => exact ⟨id, id, id⟩
  | cons op t ih =>
      simp only [runOps, List.foldl_cons]
      obtain ⟨m1, m2, m3⟩ := applyOp_latch_mono s op
      obtain ⟨i1, i2, i3⟩ := ih (applyOp s op)
      exact ⟨fun h => i1 (m1 h), fun h => i2 (m2 h), fun h => i3 (m3 h)⟩

/-- Fixture with all three latches already set. -/
def stLatched : GameState :=
  { st0 with
      counters := { baseCounters with
                      regulatoryPanic := true,
                      protocolFailure := true,
                      orbitalCollapse := true } }

/-- Witness for C2: running two full operations on a latched state leaves
all three latches true. -/
theorem C2_latches_monotone_witness :
    (runOps stLatched [Op.advance, Op.advance]).counters.regulatoryPanic =
      true ∧
    (runOps stLatched [Op.advance, Op.advance]).counters.protocolFailure =
      true ∧
    (runOps stLatched [Op.advance, Op.advance]).counters.orbitalCollapse =
      true := by
  obtain ⟨h1, h2, h3⟩ :=
    C2_latches_monotone stLatched [Op.advance, Op.advance]
  exact ⟨h1 rfl, h2 rfl, h3 rfl⟩

-- ===========================================================================
-- C3: the panic alert fires exactly at the first qualifying TURN_END
-- ===========================================================================

/-- Along any run, the panic latch is set exactly when some earlier
TURN_END evaluation saw `tas` at or above the panic threshold. -/
lemma runOps_panic_inv (s0 : GameState)
    (h0 : s0.counters.regulatoryPanic = false) :
    ∀ l : List Op, ((runOps s0 l).counters.regulatoryPanic = true ↔
      ∃ j : Fin l.length, isTurnEndEval (runOps s0 (l.take j)) (l.get j) ∧
        (runOps s0 (l.take j)).counters.tas ≥ TAS_PANIC) := by
  intro l
  induction l using List.reverseRecOn with
  | nil =>
      simp only [runOps, List.foldl_nil]
      rw [h0]
      constructor
      · intro h; cases h
      · rintro ⟨j, _⟩; exact j.elim0
  | append_singleton l op ih =>
      have hrun : runOps s0 (l ++ [op]) = applyOp (runOps s0 l) op := by
        simp [runOps, List.foldl_append]
      rw [hrun, (applyOp_panic_spec (runOps s0 l) op).2, ih]
      constructor
      · rintro (⟨j, hj⟩ | hev)
        · have hjlt : j.1 < (l ++ [op]).length := by
            simp only [List.length_append, List.length_singleton]
            omega
          refine ⟨⟨j.1, hjlt⟩, ?_⟩
          have ht : (l ++ [op]).take j.1 = l.take j.1 :=
            List.take_append_of_le_length (le_of_lt j.2)
          have hg : (l ++ [op]).get ⟨j.1, hjlt⟩ = l.get j := by
            simp only [List.get_eq_getElem]
            exact List.getElem_append_left j.2
          rw [ht, hg]
          exact hj
        · have hlen : l.length < (l ++ [op]).length := by
            simp only [List.length_append, List.length_singleton]
            omega
          refine ⟨⟨l.length, hlen⟩, ?_⟩
          have ht : (l ++ [op]).take l.length = l := List.take_left l [op]
          have hg : (l ++ [op]).get ⟨l.length, hlen⟩ = op := by
            simp only [List.get_eq_getElem]
            exact List.getElem_concat_length l op l.length rfl hlen
          rw [ht, hg]
          exact hev
      · rintro ⟨j, hj⟩
        by_cases hlt : j.1 < l.length
        · left
          refine ⟨⟨j.1, hlt⟩, ?_⟩
          have ht : (l ++ [op]).take j.1 = l.take j.1 :=
            List.take_append_of_le_length (le_of_lt hlt)
          have hg : (l ++ [op]).get j = l.get ⟨j.1, hlt⟩ := by
            simp only [List.get_eq_getElem]
            exact List.getElem_append_left hlt
          rw [ht, hg] at hj
          exact hj
        · right
          have hj1 : j.1 = l.length := by
            have := j.2
            simp only [List.length_append, List.length_singleton] at this
            omega
          have ht : (l ++ [op]).take j.1 = l := by
            rw [hj1]
            exact List.take_left l [op]
          have hg : (l ++ [op]).get j = op := by
            simp only [List.get_eq_getElem]
            exact List.getElem_concat_length l op j.1 hj1 j.2
          rw [ht, hg] at hj
          exact hj

/-- C3: for every run, the regulatory-panic alert (the `TAS_THRESHOLD`
event with threshold PANIC) is emitted by an operation exactly when that
operation is the first TURN_END evaluation at which `tas` is at or above
the panic threshold (the comparison is inclusive: the threshold value
itself fires it) — and hence at no later TURN_END evaluation. -/
theorem C3_panic_alert_first_threshold (s0 : GameState)
    (h0 : s0.counters.regulatoryPanic = false)
    (ops : List Op) (i : Fin ops.length) :
    (∃ e ∈ opEvents (runOps s0 (ops.take i)) (ops.get i),
        isPanicAlert e = true) ↔
      (isTurnEndEval (runOps s0 (ops.take i)) (ops.get i) ∧
        (runOps s0 (ops.take i)).counters.tas ≥ TAS_PANIC ∧
        ∀ j : Fin ops.length, j < i →
          ¬ (isTurnEndEval (runOps s0 (ops.take j)) (ops.get j) ∧
            (runOps s0 (ops.take j)).counters.tas ≥ TAS_PANIC)) := by
  rw [(applyOp_panic_spec (runOps s0 (ops.take i)) (ops.get i)).1]
  have hinv := runOps_panic_inv s0 h0 (ops.take i.1)
  constructor
  · rintro ⟨he, ht, hrp⟩
    refine ⟨he, ht, ?_⟩
    intro j hj hcontra
    have hset : (runOps s0 (ops.take i.1)).counters.regulatoryPanic =
        true := by
      rw [hinv]
      have hjlen : j.1 < (ops.take i.1).length := by
        rw [List.length_take]
        have h2 := i.2
        have h3 : j.1 < i.1 := hj
        omega
      refine ⟨⟨j.1, hjlen⟩, ?_⟩
      have h1 : (ops.take i.1).take j.1 = ops.take j.1 := by
        rw [List.take_take]
        congr 1
        have h3 : j.1 < i.1 := hj
        omega
      have h2 : (ops.take i.1).get ⟨j.1, hjlen⟩ = ops.get j := by
        simp only [List.get_eq_getElem]
        exact List.getElem_take ops
      rw [h1, h2]
      exact hcontra
    rw [hset] at hrp
    cases hrp
  · rintro ⟨he, ht, hall⟩
    refine ⟨he, ht, ?_⟩
    cases hrp : (runOps s0 (ops.take i.1)).counters.regulatoryPanic
    · rfl
    · exfalso
      rw [hinv] at hrp
      obtain ⟨j, hj⟩ := hrp
      have hjlen : j.1 < ops.length := by
        have h2 := j.2
        have h3 := List.length_take i.1 ops
        omega
      have hjlt : (⟨j.1, hjlen⟩ : Fin ops.length) < i := by
        have h2 := j.2
        have h3 := List.length_take i.1 ops
        show j.1 < i.1
        omega
      apply hall ⟨j.1, hjlen⟩ hjlt
      have h1 : (ops.take i.1).take j.1 = ops.take j.1 := by
        rw [List.take_take]
        congr 1
        have h2 := j.2
        have h3 := List.length_take i.1 ops
        omega
      have h2 : (ops.take i.1).get j = ops.get ⟨j.1, hjlen⟩ := by
        simp only [List.get_eq_getElem]
        exact List.getElem_take ops
      rw [h1, h2] at hj
      exact hj

/-- Witness for C3: from the fixture sitting at exactly the panic
threshold, the very next TURN_END evaluation emits the panic alert. -/
theorem C3_panic_alert_first_threshold_witness :
    ∃ e ∈ opEvents st3 Op.advance, isPanicAlert e = true := by
  have h := C3_panic_alert_first_threshold st3 rfl [Op.advance]
    ⟨0, by decide⟩
  refine h.mpr ⟨⟨rfl, rfl⟩, by decide, ?_⟩
  intro j hj
  exact absurd hj (by simp [Fin.lt_def])

end TheySing
